import Mathlib

/-!
Verification development for the TinyG cartesian trajectory planner
(src/firmware/tinyg_316.18/planner.c).

The planner's C code is shallowly embedded here: C doubles become real
numbers, the move-buffer ring becomes a function from `Fin n` to buffer
records, global singletons (`mm`, `mr`, `mb`) become explicit state records
threaded through the functions, and the non-blocking continuations become
pure functions returning a status, the updated state, and the list of
motor-queue emissions produced during the call.  Values defined in headers
that are not part of the repository snapshot (configuration constants,
`uSec`, `cubert`, the path-control-mode enum) are modelled from the spec and
marked as such.  TRAP macros are diagnostic logging only and have no state
effect, so they are not modelled.
-/

namespace TinyG

noncomputable section

/-- Return statuses (tinyg.h, modelled from the spec's error-kind list). -/
inductive TG where
  | ok
  | eagain
  | noop
  | complete
  | err
  | zero_length_move
  | buffer_full_fatal
deriving DecidableEq

/-- bf->buffer_state values (enum mpBufferState); `empty` is the zero value. -/
inductive BufferState where
  | empty
  | loading
  | queued
  | pending
  | running
deriving DecidableEq

/-- bf->move_type values (enum mpMoveType); `null` is the zero value. -/
inductive MoveType where
  | null
  | accel
  | cruise
  | decel
  | line
  | arc
  | dwell
  | start
  | stop
  | endProgram
deriving DecidableEq

/-- bf->move_state values (enum mpMoveState); `new` is the zero value.
MP_STATE_RUNNING is a convenience alias for `running_1` in the source. -/
inductive MoveState where
  | new
  | running_1
  | running_2
  | finalize
  | ended
deriving DecidableEq

/-- Modelled from the spec: path control modes (gcode.h is not in src/).
Exact stop / exact path / continuous per the spec glossary. -/
inductive PathMode where
  | exact_stop
  | exact_path
  | continuous
deriving DecidableEq

/-- Modelled from the spec: configuration consumed by the planner
(settings.h / tinyg.h / planner.h are not in src/): `linear_jerk_max`
(mm/min^3), `min_segment_len` (mm), `min_segment_time` (min), plus the
constants MIN_LINE_LENGTH, EPSILON and MP_MAX_LOOKBACK_DEPTH. -/
structure Config where
  linear_jerk_max : ℝ
  min_segment_len : ℝ
  min_segment_time : ℝ
  EPSILON : ℝ
  MIN_LINE_LENGTH : ℝ
  MP_MAX_LOOKBACK_DEPTH : ℕ

/-- AXES is fixed at 6 (X, Y, Z, A, B, C), the count assumed by
`_mp_get_angular_jerk_factor` which enumerates exactly these six axes. -/
def Vec6 : Type := Fin 6 → ℝ

/-- square(x) from util.h, modelled from its use in the source: x * x. -/
def square (x : ℝ) : ℝ := x * x

/-- Modelled from the spec: cubert from util.h (not in src/) is the cube
root, used to cache the third root of the maximum linear jerk. -/
def cubert (x : ℝ) : ℝ := x ^ ((1 : ℝ) / 3)

/-- Modelled from the spec: uSec(min) = round(min * 60 * 10^6), the
conversion from planner minutes to integer microseconds (tinyg.h). -/
def uSec (m : ℝ) : ℝ := ((round (m * 60000000) : ℤ) : ℝ)

/-- mp_get_axis_vector_length: sqrt of the sum of squared axis deltas. -/
def mp_get_axis_vector_length (target position : Vec6) : ℝ :=
  Real.sqrt (Finset.univ.sum fun i => square (target i - position i))

/-- arc variables of a move buffer (struct mpBufferArc). -/
structure mpBufferArc where
  theta : ℝ
  radius : ℝ
  angular_travel : ℝ
  linear_travel : ℝ
  axis_1 : Fin 6
  axis_2 : Fin 6
  axis_linear : Fin 6

/-- struct mpBuffer: a move/sub-move motion control block.  `nx`/`pv` are
the static ring pointers, represented as indices into the pool. -/
structure mpBuffer (n : ℕ) where
  nx : Fin n
  pv : Fin n
  target : Vec6
  unit_vec : Vec6
  a : mpBufferArc
  buffer_state : BufferState
  move_type : MoveType
  move_state : MoveState
  replannable : Bool
  time : ℝ
  length : ℝ
  start_velocity : ℝ
  end_velocity : ℝ
  request_velocity : ℝ

/-- struct mpBufferPool: the ring of `n` buffers with the write (`w`),
queue-commit (`q`) and run (`r`) pointers. -/
structure BufferPool (n : ℕ) where
  w : Fin n
  q : Fin n
  r : Fin n
  bf : Fin n → mpBuffer n

/-- struct mpMoveMasterSingleton (mm): the planning-frame cursor. -/
structure MoveMaster where
  position : Vec6
  target : Vec6
  unit_vec : Vec6
  ang_jerk_vec : Vec6
  linear_jerk_div2 : ℝ
  linear_jerk_rad3 : ℝ

/-- struct mpMoveRuntimeSingleton (mr): the runtime-frame cursor.  The
`run_move` function pointer is dispatch plumbing and is not represented. -/
structure MoveRuntime where
  run_flag : Bool
  position : Vec6
  target : Vec6
  length : ℝ
  time : ℝ
  microseconds : ℝ
  elapsed_time : ℝ
  midpoint_velocity : ℝ
  midpoint_acceleration : ℝ
  segments : ℝ
  segment_count : ℕ
  segment_time : ℝ
  segment_length : ℝ
  segment_velocity : ℝ
  segment_theta : ℝ
  center_1 : ℝ
  center_2 : ℝ

/-- struct mpMovePlanner: the scratch structure used to compute or
recompute the three regions of a move.  `head`/`body`/`tail` are buffer
indices. -/
structure MovePlanner (n : ℕ) where
  path_mode : PathMode
  head : Fin n
  body : Fin n
  tail : Fin n
  length : ℝ
  head_length : ℝ
  body_length : ℝ
  tail_length : ℝ
  initial_velocity_req : ℝ
  initial_velocity : ℝ
  target_velocity : ℝ
  cruise_velocity : ℝ
  final_velocity : ℝ

/-- one line pushed to the motor queue: the cartesian travel handed to
`ik_kinematics` together with the duration in microseconds.  The external
kinematics and motor-queue functions are pure sinks, so recording their
arguments captures the planner-visible effect. -/
structure Emission where
  travel : Vec6
  microseconds : ℝ

variable {n : ℕ}

/-- _mp_clear_buffer: memset the buffer to zero, preserving the `nx`/`pv`
ring pointers.  All enum fields take their zero values. -/
def _mp_clear_buffer (bf : mpBuffer n) : mpBuffer n :=
  { nx := bf.nx
    pv := bf.pv
    target := fun _ => 0
    unit_vec := fun _ => 0
    a := { theta := 0, radius := 0, angular_travel := 0, linear_travel := 0,
           axis_1 := 0, axis_2 := 0, axis_linear := 0 }
    buffer_state := .empty
    move_type := .null
    move_state := .new
    replannable := false
    time := 0
    length := 0
    start_velocity := 0
    end_velocity := 0
    request_velocity := 0 }

/-- _mp_init_buffers: clear the pool, point `w`/`q`/`r` at buffer 0 and
link the ring (`bf[i].nx = bf[i+1]`, `bf[i].pv = bf[i-1]`, cyclically). -/
def _mp_init_buffers (n : ℕ) [NeZero n] : BufferPool n :=
  { w := 0
    q := 0
    r := 0
    bf := fun i =>
      { nx := i + 1
        pv := i - 1
        target := fun _ => 0
        unit_vec := fun _ => 0
        a := { theta := 0, radius := 0, angular_travel := 0, linear_travel := 0,
               axis_1 := 0, axis_2 := 0, axis_linear := 0 }
        buffer_state := .empty
        move_type := .null
        move_state := .new
        replannable := false
        time := 0
        length := 0
        start_velocity := 0
        end_velocity := 0
        request_velocity := 0 } }

/-- _mp_get_write_buffer: if the buffer at `w` is EMPTY, zero its payload
(preserving `nx`/`pv`), mark it LOADING, advance `w` along the stored `nx`
pointer and return it; otherwise return nothing. -/
def _mp_get_write_buffer (p : BufferPool n) : Option (Fin n) × BufferPool n :=
  if (p.bf p.w).buffer_state = .empty then
    let w := p.w
    let cleared := { _mp_clear_buffer (p.bf w) with buffer_state := .loading }
    (some w, { p with bf := Function.update p.bf w cleared, w := (p.bf w).nx })
  else (none, p)

/-- _mp_unget_write_buffer: step `w` back along the stored `pv` pointer and
mark that slot EMPTY (its payload is not cleared). -/
def _mp_unget_write_buffer (p : BufferPool n) : BufferPool n :=
  let w2 := (p.bf p.w).pv
  { p with w := w2,
           bf := Function.update p.bf w2 { p.bf w2 with buffer_state := .empty } }

/-- _mp_queue_write_buffer: stamp the buffer at `q` with the move type, set
its move state NEW and buffer state QUEUED, and advance `q` along `nx`. -/
def _mp_queue_write_buffer (move_type : MoveType) (p : BufferPool n) : BufferPool n :=
  let b := p.bf p.q
  { p with bf := Function.update p.bf p.q
             { b with move_type := move_type, move_state := .new,
                      buffer_state := .queued },
           q := b.nx }

/-- _mp_get_run_buffer: promote a QUEUED or PENDING buffer at `r` to
RUNNING; return the buffer at `r` when it is RUNNING (idempotent re-entry),
nothing otherwise. -/
def _mp_get_run_buffer (p : BufferPool n) : Option (Fin n) × BufferPool n :=
  let p1 :=
    if (p.bf p.r).buffer_state = .queued ∨ (p.bf p.r).buffer_state = .pending then
      { p with bf := Function.update p.bf p.r
                 { p.bf p.r with buffer_state := .running } }
    else p
  if (p1.bf p1.r).buffer_state = .running then (some p1.r, p1) else (none, p1)

/-- _mp_finalize_run_buffer: clear the run buffer (leaving it EMPTY),
advance `r` along `nx`, and promote the new run buffer to PENDING when it
is QUEUED. -/
def _mp_finalize_run_buffer (p : BufferPool n) : BufferPool n :=
  let r2 := (p.bf p.r).nx
  let p1 := { p with bf := Function.update p.bf p.r (_mp_clear_buffer (p.bf p.r)),
                     r := r2 }
  if (p1.bf r2).buffer_state = .queued then
    { p1 with bf := Function.update p1.bf r2
                { p1.bf r2 with buffer_state := .pending } }
  else p1

/-- mp_check_for_write_buffers: TRUE iff the next `count` buffers starting
at `w` (following the stored `nx` pointers) are all EMPTY. -/
def mp_check_for_write_buffers (p : BufferPool n) : ℕ → Fin n → Bool
  | 0, _ => true
  | count + 1, w =>
      if (p.bf w).buffer_state = .empty then
        mp_check_for_write_buffers p count (p.bf w).nx
      else false

/-- _mp_get_prev_buffer_implicit: the buffer immediately before the next
available write buffer. -/
def _mp_get_prev_buffer_implicit (p : BufferPool n) : Fin n :=
  (p.bf p.w).pv

/-- _mp_get_prev_buffer: previous buffer in the linked list. -/
def _mp_get_prev_buffer (p : BufferPool n) (i : Fin n) : Fin n :=
  (p.bf i).pv

/-- _mp_clear_planner: zero a planner struct (memset).  The zero value of
the path-mode enum is not known from src/; the spec lists exact stop first
and the field is always written before it is read. -/
def _mp_clear_planner (n : ℕ) [NeZero n] : MovePlanner n :=
  { path_mode := .exact_stop
    head := 0
    body := 0
    tail := 0
    length := 0
    head_length := 0
    body_length := 0
    tail_length := 0
    initial_velocity_req := 0
    initial_velocity := 0
    target_velocity := 0
    cruise_velocity := 0
    final_velocity := 0 }

/-- _mp_get_unit_vector: per-axis direction cosines of the move. -/
def _mp_get_unit_vector (target position : Vec6) : Vec6 :=
  fun i => (target i - position i) / mp_get_axis_vector_length target position

/-- _mp_get_length: length of a region given the two end velocities and the
maximum jerk: |Vf - Vi| * sqrt(|Vf - Vi| / Jm). -/
def _mp_get_length (cfg : Config) (Vi Vt : ℝ) : ℝ :=
  let deltaV := |Vt - Vi|
  deltaV * Real.sqrt (deltaV / cfg.linear_jerk_max)

/-- _mp_get_velocity: cruise velocity from an end velocity and a length,
`mm.linear_jerk_rad3 * pow(L, 0.6666667) + V` exactly as coded (the
exponent in the source is the literal 0.6666667, not 2/3). -/
def _mp_get_velocity (mm : MoveMaster) (V L : ℝ) : ℝ :=
  mm.linear_jerk_rad3 * L ^ ((0.6666667 : ℝ)) + V

/-- Modelled from the spec: the cruise-velocity formula as the spec states
it, `V(V0, L) = Jm^(1/3) * L^(2/3) + V0`, with the exponent exactly 2/3
(the source code approximates it by the literal 0.6666667). -/
def mp_get_velocity_spec (cfg : Config) (V L : ℝ) : ℝ :=
  cubert cfg.linear_jerk_max * L ^ ((2 : ℝ) / 3) + V

/-- _mp_get_angular_jerk_factor: cosine of half the join angle between the
current unit vector in `mm` and the previous buffer's unit vector; the dot
product is written out over the six axes X..C exactly as in the source. -/
def _mp_get_angular_jerk_factor (mm : MoveMaster) (p : mpBuffer n) : ℝ :=
  let cosine := mm.unit_vec 0 * p.unit_vec 0 +
                mm.unit_vec 1 * p.unit_vec 1 +
                mm.unit_vec 2 * p.unit_vec 2 +
                mm.unit_vec 3 * p.unit_vec 3 +
                mm.unit_vec 4 * p.unit_vec 4 +
                mm.unit_vec 5 * p.unit_vec 5
  Real.cos (Real.arccos cosine / 2)

/-- _mp_get_move_type: NULL for sub-minimum lengths, otherwise CRUISE,
ACCEL or DECEL from the start/end velocity relation. -/
def _mp_get_move_type (cfg : Config) (bf : mpBuffer n) : MoveType :=
  if bf.length < cfg.MIN_LINE_LENGTH then .null
  else if |bf.start_velocity - bf.end_velocity| < cfg.EPSILON then .cruise
  else if bf.start_velocity < bf.end_velocity then .accel
  else .decel

/-- one pass of the HT-case do-while loop of _mp_compute_regions
(planner.c lines 1349-1362): re-estimate the head by the velocity-delta
proportion, recompute the cruise velocity from it, then recompute head and
tail lengths and the body residual.  Returns (Vc, head, tail, body). -/
def _mp_ht_pass (cfg : Config) (mm : MoveMaster) (length Vi Vf Vc : ℝ) :
    ℝ × ℝ × ℝ × ℝ :=
  let deltaVh := |Vi - Vc|
  let head0 := length * (deltaVh / (deltaVh + |Vc - Vf|))
  let Vc2 := _mp_get_velocity mm Vi head0
  let head2 := _mp_get_length cfg Vc2 Vi
  let tail2 := _mp_get_length cfg Vc2 Vf
  (Vc2, head2, tail2, length - head2 - tail2)

/-- the HT-case do-while loop with its 100-iteration cap: iterate
`_mp_ht_pass` while successive body residuals differ by more than EPSILON.
`fuel` counts the remaining loop-condition checks (the source allows 100
checks, so at most 101 passes). -/
def _mp_ht_loop (cfg : Config) (mm : MoveMaster) (length Vi Vf : ℝ) :
    ℕ → ℝ → ℝ → ℝ × ℝ × ℝ × ℝ
  | 0, Vc, _ => _mp_ht_pass cfg mm length Vi Vf Vc
  | fuel + 1, Vc, prevBody =>
      let r := _mp_ht_pass cfg mm length Vi Vf Vc
      if |prevBody - r.2.2.2| > cfg.EPSILON then
        _mp_ht_loop cfg mm length Vi Vf fuel r.1 r.2.2.2
      else r

/-- _mp_compute_regions: compute the region lengths and the velocity
contour for a move of `m.length` mm from the requested initial (Vir),
target (Vt) and final (Vf) velocities.  Returns the number of regions
(0-3) and the updated planner struct, following the source case order:
reject, HBT (with sub-minimum head/tail folded into the body), the three
single-region cases T, H and B, and the HT fallback loop (after which the
body is forced to zero and sub-EPSILON head/tail are snapped to zero). -/
def _mp_compute_regions (cfg : Config) (mm : MoveMaster)
    (Vir Vt Vf : ℝ) (m0 : MovePlanner n) : ℕ × MovePlanner n :=
  let m := { m0 with initial_velocity_req := Vir, initial_velocity := Vir,
                     target_velocity := Vt, cruise_velocity := Vt,
                     final_velocity := Vf,
                     head_length := 0, body_length := 0, tail_length := 0 }
  if m.length < cfg.MIN_LINE_LENGTH then (0, m)
  else
    let hl := _mp_get_length cfg Vir Vt
    let tl := _mp_get_length cfg Vt Vf
    let bl := m.length - hl - tl
    if bl > 0 then
      let p1 := if hl < cfg.MIN_LINE_LENGTH then ((0 : ℝ), bl + hl) else (hl, bl)
      let p2 := if tl < cfg.MIN_LINE_LENGTH then ((0 : ℝ), p1.2 + tl) else (tl, p1.2)
      (3, { m with head_length := p1.1, body_length := p2.2, tail_length := p2.1 })
    else
      if Vf < Vir ∧ m.length < tl then
        let Vi2 := _mp_get_velocity mm Vf m.length
        (1, { m with head_length := 0, tail_length := m.length, body_length := 0,
                     initial_velocity := Vi2, cruise_velocity := Vi2 })
      else if Vf > Vir ∧ m.length < hl then
        let Vc2 := _mp_get_velocity mm Vir m.length
        (1, { m with head_length := m.length, tail_length := 0, body_length := 0,
                     initial_velocity := Vir, cruise_velocity := Vc2,
                     final_velocity := Vc2 })
      else if |Vf - Vir| < cfg.EPSILON ∧ |Vf - Vt| < cfg.EPSILON then
        (1, { m with head_length := 0, tail_length := 0, body_length := m.length })
      else
        let r := _mp_ht_loop cfg mm m.length Vir Vf 100 Vt 0
        let head2 := if r.2.1 < cfg.EPSILON then (0 : ℝ) else r.2.1
        let tail2 := if r.2.2.1 < cfg.EPSILON then (0 : ℝ) else r.2.2.1
        (2, { m with cruise_velocity := r.1, head_length := head2,
                     tail_length := tail2, body_length := 0 })

/-- _mp_queue_buffer: acquire a write buffer, fill it with the region's
velocities and length, copy the unit vector from `mm`, integrate
`mm.position += len * unit_vec`, set the buffer target to the cumulative
position, mark it replannable and commit it with its derived move type.
Returns the committed index (or nothing on acquisition failure) together
with the updated master cursor and pool. -/
def _mp_queue_buffer (cfg : Config) (Vs Ve Vr len : ℝ)
    (mm : MoveMaster) (p : BufferPool n) :
    Option (Fin n) × MoveMaster × BufferPool n :=
  match _mp_get_write_buffer p with
  | (none, p1) => (none, mm, p1)
  | (some i, p1) =>
      let mm2 := { mm with position := fun k => mm.position k + len * mm.unit_vec k }
      let b1 := { p1.bf i with
        start_velocity := Vs,
        end_velocity := Ve,
        request_velocity := Vr,
        length := len,
        unit_vec := mm.unit_vec,
        target := mm2.position,
        replannable := true }
      let p2 := { p1 with bf := Function.update p1.bf i b1 }
      (some i, mm2, _mp_queue_write_buffer (_mp_get_move_type cfg b1) p2)

/-- _mp_queue_move: write the three regions of a planner struct to buffers
(head, body, tail in order).  Each successful `_mp_queue_buffer` commits
its buffer immediately; a failure returns BUFFER_FULL_FATAL with whatever
was committed so far left in place, exactly as in the source. -/
def _mp_queue_move (cfg : Config) (m : MovePlanner n)
    (mm : MoveMaster) (p : BufferPool n) :
    TG × MovePlanner n × MoveMaster × BufferPool n :=
  match _mp_queue_buffer cfg m.initial_velocity m.cruise_velocity
      m.initial_velocity_req m.head_length mm p with
  | (none, mm1, p1) => (.buffer_full_fatal, m, mm1, p1)
  | (some h, mm1, p1) =>
      match _mp_queue_buffer cfg m.cruise_velocity m.cruise_velocity
          m.target_velocity m.body_length mm1 p1 with
      | (none, mm2, p2) => (.buffer_full_fatal, { m with head := h }, mm2, p2)
      | (some b, mm2, p2) =>
          match _mp_queue_buffer cfg m.cruise_velocity m.final_velocity
              m.target_velocity m.tail_length mm2 p2 with
          | (none, mm3, p3) =>
              (.buffer_full_fatal, { m with head := h, body := b }, mm3, p3)
          | (some t, mm3, p3) =>
              (.ok, { m with head := h, body := b, tail := t }, mm3, p3)

/-- _mp_update_move: write a replanned planner struct back to its three
region buffers (velocities, lengths and re-derived move types) and clear
the three replannable flags when the move is now optimally planned. -/
def _mp_update_move (cfg : Config) (p m : MovePlanner n)
    (pool : BufferPool n) : BufferPool n :=
  let hb0 := { pool.bf p.head with
    start_velocity := p.initial_velocity,
    end_velocity := p.cruise_velocity,
    request_velocity := p.initial_velocity_req,
    length := p.head_length }
  let hb := { hb0 with move_type := _mp_get_move_type cfg hb0 }
  let bb0 := { pool.bf p.body with
    start_velocity := p.cruise_velocity,
    end_velocity := p.cruise_velocity,
    request_velocity := p.target_velocity,
    length := p.body_length }
  let bb := { bb0 with move_type := _mp_get_move_type cfg bb0 }
  let tb0 := { pool.bf p.tail with
    start_velocity := p.cruise_velocity,
    end_velocity := p.final_velocity,
    request_velocity := p.final_velocity,
    length := p.tail_length }
  let tb := { tb0 with move_type := _mp_get_move_type cfg tb0 }
  let bf1 := Function.update (Function.update (Function.update pool.bf p.head hb)
               p.body bb) p.tail tb
  let pool1 := { pool with bf := bf1 }
  if |(pool1.bf p.head).start_velocity - p.initial_velocity_req| < cfg.EPSILON ∧
     |(pool1.bf p.body).start_velocity - p.target_velocity| < cfg.EPSILON ∧
     |(pool1.bf p.tail).end_velocity - m.initial_velocity_req| < cfg.EPSILON then
    let fa := Function.update pool1.bf p.head
                { pool1.bf p.head with replannable := false }
    let fb := Function.update fa p.body { fa p.body with replannable := false }
    let fc := Function.update fb p.tail { fb p.tail with replannable := false }
    { pool1 with bf := fc }
  else pool1

/-- _mp_make_previous_move: reconstruct the planning struct of the move
preceding `m` from its three buffers (walking the `pv` pointers from
`m.head`).  Returns COMPLETE without populating the velocities when the
previous move's tail or body is no longer replannable (it is OK for the
head to be running). -/
def _mp_make_previous_move [NeZero n] (m : MovePlanner n) (pool : BufferPool n) :
    TG × MovePlanner n :=
  let t := _mp_get_prev_buffer pool m.head
  let b := _mp_get_prev_buffer pool t
  let h := _mp_get_prev_buffer pool b
  let p0 := { _mp_clear_planner n with tail := t, body := b, head := h }
  if (pool.bf t).replannable = false ∨ (pool.bf b).replannable = false then
    (.complete, p0)
  else
    (.ok, { p0 with
      initial_velocity_req := (pool.bf h).request_velocity,
      initial_velocity := (pool.bf h).start_velocity,
      target_velocity := (pool.bf b).request_velocity,
      cruise_velocity := (pool.bf b).start_velocity,
      final_velocity := (pool.bf t).end_velocity,
      head_length := (pool.bf h).length,
      body_length := (pool.bf b).length,
      tail_length := (pool.bf t).length,
      length := (pool.bf h).length + (pool.bf b).length + (pool.bf t).length })

/-- the do-while walk of _mp_set_braking_velocity (planner.c lines
1202-1211): step back one whole move per pass (three `pv` hops from the
current head), accumulate the three buffer lengths, and continue while the
buffer before the new head is replannable.  `fuel` counts the remaining
loop-condition checks (MP_MAX_LOOKBACK_DEPTH in the source). -/
def _mp_braking_walk (pool : BufferPool n) :
    ℕ → Fin n → ℝ → Fin n × Fin n × Fin n × ℝ
  | 0, headIdx, acc =>
      let t := (pool.bf headIdx).pv
      let b := (pool.bf t).pv
      let h := (pool.bf b).pv
      (h, b, t, acc + (pool.bf h).length + (pool.bf b).length + (pool.bf t).length)
  | fuel + 1, headIdx, acc =>
      let t := (pool.bf headIdx).pv
      let b := (pool.bf t).pv
      let h := (pool.bf b).pv
      let acc2 := acc + (pool.bf h).length + (pool.bf b).length + (pool.bf t).length
      if (pool.bf (pool.bf h).pv).replannable = true then
        _mp_braking_walk pool fuel h acc2
      else (h, b, t, acc2)

/-- _mp_set_braking_velocity: copy the current move into `p`, walk back
over contiguous replannable predecessors accumulating `p.length`, then set
`p.initial_velocity_req := min(_mp_get_velocity(0, m.length), p.initial_velocity_req)`.
Note that the source computes the braking velocity from `m->length` (the
newest move's length alone), not from the accumulated `p->length`. -/
def _mp_set_braking_velocity [NeZero n] (cfg : Config) (mm : MoveMaster)
    (m : MovePlanner n) (pool : BufferPool n) : MovePlanner n :=
  let p0 := { _mp_clear_planner n with
    head := m.head,
    body := m.body,
    tail := m.tail,
    length := m.length,
    initial_velocity_req := m.initial_velocity_req }
  let wlk := _mp_braking_walk pool cfg.MP_MAX_LOOKBACK_DEPTH p0.head p0.length
  { p0 with
    head := wlk.1,
    body := wlk.2.1,
    tail := wlk.2.2.1,
    length := wlk.2.2.2,
    initial_velocity_req :=
      min (_mp_get_velocity mm 0 m.length) p0.initial_velocity_req }

/-- the backplanning while-loop of _mp_backplan: reconstruct the previous
move, recompute its regions against the newer move's initial velocity,
write it back, and walk backwards (`fuel` bounds the passes as
MP_MAX_LOOKBACK_DEPTH does in the source). -/
def _mp_backplan_loop [NeZero n] (cfg : Config) (mm : MoveMaster) :
    ℕ → MovePlanner n → BufferPool n → BufferPool n
  | 0, _, pool => pool
  | fuel + 1, m, pool =>
      let mk := _mp_make_previous_move m pool
      if mk.1 = .complete then pool
      else
        let r := _mp_compute_regions cfg mm mk.2.initial_velocity_req
                   mk.2.target_velocity m.initial_velocity mk.2
        let pool2 := _mp_update_move cfg r.2 m pool
        _mp_backplan_loop cfg mm fuel r.2 pool2

/-- _mp_backplan: if the current move is an exact stop, stamp the previous
move's three regions non-replannable and return; otherwise run the braking
pass (whose result is written only into the scratch struct `p`, which the
first `_mp_make_previous_move` of the loop immediately clears, exactly as
in the source) and then the forward re-optimization passes. -/
def _mp_backplan [NeZero n] (cfg : Config) (mm : MoveMaster)
    (m : MovePlanner n) (pool : BufferPool n) : BufferPool n :=
  if m.path_mode = .exact_stop then
    let p1 := (_mp_make_previous_move m pool).2
    let fa := Function.update pool.bf p1.head
                { pool.bf p1.head with replannable := false }
    let fb := Function.update fa p1.body { fa p1.body with replannable := false }
    let fc := Function.update fb p1.tail { fb p1.tail with replannable := false }
    { pool with bf := fc }
  else
    let _ := _mp_set_braking_velocity cfg mm m pool
    _mp_backplan_loop cfg mm (cfg.MP_MAX_LOOKBACK_DEPTH + 1) m pool

/-- mp_line: queue a simple linear move.  Rejects sub-EPSILON times and
sub-MIN_LINE_LENGTH lengths (ungetting the already-acquired buffer in the
latter case), else commits a LINE buffer and sets `mm.position` for
planning.  The length is measured from `mr.position`, passed here as
`mrPosition`. -/
def mp_line (cfg : Config) (target : Vec6) (minutes : ℝ) (mrPosition : Vec6)
    (mm : MoveMaster) (pool : BufferPool n) : TG × MoveMaster × BufferPool n :=
  if minutes < cfg.EPSILON then (.zero_length_move, mm, pool)
  else
    match _mp_get_write_buffer pool with
    | (none, pool1) => (.buffer_full_fatal, mm, pool1)
    | (some i, pool1) =>
        let len := mp_get_axis_vector_length target mrPosition
        let b1 := { pool1.bf i with time := minutes, target := target, length := len }
        let pool2 := { pool1 with bf := Function.update pool1.bf i b1 }
        if len < cfg.MIN_LINE_LENGTH then
          (.zero_length_move, mm, _mp_unget_write_buffer pool2)
        else
          let b2 := { b1 with request_velocity := len / minutes }
          let pool3 := { pool2 with bf := Function.update pool2.bf i b2 }
          let pool4 := _mp_queue_write_buffer .line pool3
          (.ok, { mm with position := target }, pool4)

/-- the `ritorno` macro applied to _mp_queue_move inside mp_aline's arc
branch: surface a non-OK status (with the partially updated state),
otherwise return OK. -/
def _mp_ritorno (q : TG × MovePlanner n × MoveMaster × BufferPool n) :
    TG × MoveMaster × BufferPool n :=
  if q.1 ≠ .ok then (q.1, q.2.2.1, q.2.2.2) else (.ok, q.2.2.1, q.2.2.2)

/-- the tail of mp_aline's straight-line path: `ritorno(_mp_queue_move(m))`
followed by `_mp_backplan(m)` and TG_OK. -/
def _mp_aline_finish [NeZero n] (cfg : Config)
    (q : TG × MovePlanner n × MoveMaster × BufferPool n) :
    TG × MoveMaster × BufferPool n :=
  if q.1 ≠ .ok then (q.1, q.2.2.1, q.2.2.2)
  else (.ok, q.2.2.1, _mp_backplan cfg q.2.2.1 q.2.1 q.2.2.2)

/-- mp_aline: plan and queue an acceleration-limited line.  Traps
sub-EPSILON times and sub-MIN_LINE_LENGTH lengths (note that `mm.target`
has already been overwritten when the length check fires), selects the
requested initial velocity from the predecessor buffer (arc end velocity /
forced exact stop / previous request velocity scaled by the angular jerk
factor and clamped to Vt), computes the regions, queues them, and
backplans.  `path_mode_req` stands for cm_get_path_control_mode(). -/
def mp_aline [NeZero n] (cfg : Config) (path_mode_req : PathMode)
    (target : Vec6) (minutes : ℝ) (mm : MoveMaster) (pool : BufferPool n) :
    TG × MoveMaster × BufferPool n :=
  if minutes < cfg.EPSILON then (.zero_length_move, mm, pool)
  else
    let m0 := _mp_clear_planner n
    let mm1 := { mm with target := target }
    let m1 := { m0 with length := mp_get_axis_vector_length mm1.target mm1.position }
    if m1.length < cfg.MIN_LINE_LENGTH then (.zero_length_move, mm1, pool)
    else
      let m2 := { m1 with target_velocity := m1.length / minutes }
      let mm2 := { mm1 with
        unit_vec := _mp_get_unit_vector mm1.target mm1.position,
        linear_jerk_div2 := cfg.linear_jerk_max / 2,
        linear_jerk_rad3 := cubert cfg.linear_jerk_max }
      let t := pool.bf (_mp_get_prev_buffer_implicit pool)
      if t.move_type = .arc ∧ t.buffer_state ≠ .empty then
        let m3 := { m2 with initial_velocity_req := t.end_velocity }
        let r := _mp_compute_regions cfg mm2 m3.initial_velocity_req
                   m3.target_velocity 0 m3
        _mp_ritorno (_mp_queue_move cfg r.2 mm2 pool)
      else
        let m3 :=
          if t.buffer_state ≠ .queued then
            { m2 with path_mode := .exact_stop, initial_velocity_req := 0 }
          else
            let ivr := min (t.request_velocity * _mp_get_angular_jerk_factor mm2 t)
                         m2.target_velocity
            { m2 with path_mode := path_mode_req, initial_velocity_req := ivr }
        let r := _mp_compute_regions cfg mm2 m3.initial_velocity_req
                   m3.target_velocity 0 m3
        if r.1 = 0 then (.ok, mm2, pool)
        else _mp_aline_finish cfg (_mp_queue_move cfg r.2 mm2 pool)

/-- mp_queued_stop: queue a motor stop.  The C function returns void: when
no write buffer is available it logs a trap and returns, handing no status
to its caller. -/
def mp_queued_stop (pool : BufferPool n) : BufferPool n :=
  match _mp_get_write_buffer pool with
  | (none, pool1) => pool1
  | (some _, pool1) => _mp_queue_write_buffer .stop pool1

/-- mp_queued_start: queue a motor start; void like mp_queued_stop. -/
def mp_queued_start (pool : BufferPool n) : BufferPool n :=
  match _mp_get_write_buffer pool with
  | (none, pool1) => pool1
  | (some _, pool1) => _mp_queue_write_buffer .start pool1

/-- mp_queued_end: queue an END directive; void like mp_queued_stop. -/
def mp_queued_end (pool : BufferPool n) : BufferPool n :=
  match _mp_get_write_buffer pool with
  | (none, pool1) => pool1
  | (some _, pool1) => _mp_queue_write_buffer .endProgram pool1

/-- _mp_run_arc: the arc continuation.  Returns EAGAIN untouched when the
motor queue has no room (`mqAvail = false` stands for
mq_test_motor_buffer() == FALSE).  On first entry (move state NEW) it
computes the segment count, per-segment theta/length/microseconds and the
circle center from the current runtime position, then (in the same call,
as in the source) emits one arc segment: advance theta, place the plane
targets on the circle, step the linear axis, queue the line, update
`mr.position` and decrement the segment count, returning EAGAIN while
segments remain and OK when the count reaches zero. -/
def _mp_run_arc (cfg : Config) (mqAvail : Bool) (bf : mpBuffer n)
    (mr : MoveRuntime) : TG × mpBuffer n × MoveRuntime × List Emission :=
  if mqAvail = false then (.eagain, bf, mr, [])
  else
    let st1 :=
      if bf.move_state = .new then
        let segs : ℝ := ((⌈bf.length / cfg.min_segment_len⌉ : ℤ) : ℝ)
        let mrA := { mr with
          segments := segs,
          segment_count := (⌈bf.length / cfg.min_segment_len⌉).toNat,
          segment_theta := bf.a.angular_travel / segs,
          segment_length := bf.a.linear_travel / segs,
          microseconds := uSec (bf.time / segs),
          center_1 := mr.position bf.a.axis_1 - Real.sin bf.a.theta * bf.a.radius,
          center_2 := mr.position bf.a.axis_2 - Real.cos bf.a.theta * bf.a.radius }
        let mrB := { mrA with
          target := Function.update mrA.target bf.a.axis_linear
                      (mrA.position bf.a.axis_linear) }
        ({ bf with move_state := .running_1 }, mrB)
      else (bf, mr)
    let bf1 := st1.1
    let mr1 := st1.2
    if bf1.move_state = .running_1 then
      let theta2 := bf1.a.theta + mr1.segment_theta
      let bf2 := { bf1 with a := { bf1.a with theta := theta2 } }
      let tgt1 := Function.update mr1.target bf2.a.axis_1
                    (mr1.center_1 + Real.sin theta2 * bf2.a.radius)
      let tgt2 := Function.update tgt1 bf2.a.axis_2
                    (mr1.center_2 + Real.cos theta2 * bf2.a.radius)
      let tgt3 := Function.update tgt2 bf2.a.axis_linear
                    (tgt2 bf2.a.axis_linear + mr1.segment_length)
      let travel : Vec6 := fun i => tgt3 i - mr1.position i
      let mr2 := { mr1 with target := tgt3, position := tgt3,
                            segment_count := mr1.segment_count - 1 }
      if 0 < mr1.segment_count - 1 then
        (.eagain, bf2, mr2, [⟨travel, mr1.microseconds⟩])
      else (.ok, bf2, mr2, [⟨travel, mr1.microseconds⟩])
    else (.ok, bf1, mr1, [])

/-- _mp_aline_run_segment: emit one fixed-time segment of a head or tail:
target = position + unit_vec * segment_velocity * segment_time per axis
(stored into the buffer's target, as in the source), queue the line,
accumulate elapsed time, advance `mr.position` and decrement the segment
count; EAGAIN while segments remain, OK on exhaustion. -/
def _mp_aline_run_segment (bf : mpBuffer n) (mr : MoveRuntime) :
    TG × mpBuffer n × MoveRuntime × List Emission :=
  let tgt : Vec6 := fun i =>
    mr.position i + bf.unit_vec i * mr.segment_velocity * mr.segment_time
  let travel : Vec6 := fun i => tgt i - mr.position i
  let bf2 := { bf with target := tgt }
  let mr2 := { mr with elapsed_time := mr.elapsed_time + mr.segment_time,
                       position := tgt, segment_count := mr.segment_count - 1 }
  if 0 < mr.segment_count - 1 then (.eagain, bf2, mr2, [⟨travel, mr.microseconds⟩])
  else (.ok, bf2, mr2, [⟨travel, mr.microseconds⟩])

/-- _mp_aline_run_finalize: emit one closing line spanning
`mr.target - mr.position` at the end velocity to null out accumulated
rounding error; zero-length and zero-velocity cases are dropped. -/
def _mp_aline_run_finalize (cfg : Config) (bf : mpBuffer n) (mr : MoveRuntime) :
    MoveRuntime × List Emission :=
  let len := mp_get_axis_vector_length mr.target mr.position
  let mr1 := { mr with length := len }
  if len < cfg.MIN_LINE_LENGTH ∨ bf.end_velocity < cfg.EPSILON then (mr1, [])
  else
    let t := len / bf.end_velocity
    let mr2 := { mr1 with time := t, microseconds := uSec t }
    let travel : Vec6 := fun i => mr2.target i - mr2.position i
    ({ mr2 with position := mr2.target }, [⟨travel, mr2.microseconds⟩])

/-- the two running phases shared by the accel runner (planner.c lines
1654-1676): phase 1 computes the concave-portion segment velocity
Vs + Jm/2 * elapsed^2; when its segments are exhausted it re-arms the
count and elapsed time for phase 2 and returns EAGAIN; phase 2 computes
Vmid + elapsed * Amid - Jm/2 * elapsed^2 and finalizes on the last
segment. -/
def _mp_run_accel_phase (cfg : Config) (mm : MoveMaster) (bf : mpBuffer n)
    (mr : MoveRuntime) : TG × mpBuffer n × MoveRuntime × List Emission :=
  if bf.move_state = .running_1 then
    let mr1 := { mr with segment_velocity :=
      bf.start_velocity + mm.linear_jerk_div2 * square mr.elapsed_time }
    match _mp_aline_run_segment bf mr1 with
    | (st, bf2, mr2, ems) =>
        if st ≠ .ok then (st, bf2, mr2, ems)
        else
          let mr3 := { mr2 with segment_count := (⌊mr2.segments⌋).toNat,
                                elapsed_time := mr2.segment_time / 2 }
          (.eagain, { bf2 with move_state := .running_2 }, mr3, ems)
  else if bf.move_state = .running_2 then
    if 1 < mr.segment_count then
      let mr1 := { mr with segment_velocity :=
        mr.midpoint_velocity + mr.elapsed_time * mr.midpoint_acceleration -
          mm.linear_jerk_div2 * square mr.elapsed_time }
      _mp_aline_run_segment bf mr1
    else
      let fin := _mp_aline_run_finalize cfg bf mr
      (.ok, bf, fin.1, fin.2)
  else (.err, bf, mr, [])

/-- _mp_run_accel: the acceleration-region continuation.  On first entry
it clears the replannable flag; a sub-MIN_LINE_LENGTH region is tossed
with OK (no emission, `mr` untouched).  Otherwise it initializes the
midpoint velocity/acceleration, the per-half segment count
round(round(60e6 * time / min_segment_time) / 2) (cancelling the move if
it is zero), the segment time and elapsed time, and enters phase 1. -/
def _mp_run_accel (cfg : Config) (mm : MoveMaster) (mqAvail : Bool)
    (bf : mpBuffer n) (mr : MoveRuntime) :
    TG × mpBuffer n × MoveRuntime × List Emission :=
  if mqAvail = false then (.eagain, bf, mr, [])
  else if bf.move_state = .new then
    let bf1 := { bf with replannable := false }
    if bf1.length < cfg.MIN_LINE_LENGTH then (.ok, bf1, mr, [])
    else
      let midV := (bf1.start_velocity + bf1.end_velocity) / 2
      let time := bf1.length / midV
      let mrA := { mr with midpoint_velocity := midV, time := time,
                           midpoint_acceleration := time * mm.linear_jerk_div2,
                           target := bf1.target }
      let segVal : ℤ :=
        round ((((round (60000000 * (time / cfg.min_segment_time)) : ℤ) : ℝ)) / 2)
      let mrB := { mrA with segments := ((segVal : ℤ) : ℝ) }
      if segVal.toNat = 0 then (.ok, bf1, mrB, [])
      else
        let segT := time / (2 * ((segVal : ℤ) : ℝ))
        let mrC := { mrB with segment_time := segT,
                              elapsed_time := segT / 2,
                              microseconds := uSec segT,
                              segment_count := segVal.toNat }
        _mp_run_accel_phase cfg mm { bf1 with move_state := .running_1 } mrC
  else _mp_run_accel_phase cfg mm bf mr

/-- the two running phases of the decel runner (planner.c lines
1712-1734), with the signs of the jerk terms flipped relative to accel. -/
def _mp_run_decel_phase (cfg : Config) (mm : MoveMaster) (bf : mpBuffer n)
    (mr : MoveRuntime) : TG × mpBuffer n × MoveRuntime × List Emission :=
  if bf.move_state = .running_1 then
    let mr1 := { mr with segment_velocity :=
      bf.start_velocity - mm.linear_jerk_div2 * square mr.elapsed_time }
    match _mp_aline_run_segment bf mr1 with
    | (st, bf2, mr2, ems) =>
        if st ≠ .ok then (st, bf2, mr2, ems)
        else
          let mr3 := { mr2 with segment_count := (⌊mr2.segments⌋).toNat,
                                elapsed_time := mr2.segment_time / 2 }
          (.eagain, { bf2 with move_state := .running_2 }, mr3, ems)
  else if bf.move_state = .running_2 then
    if 1 < mr.segment_count then
      let mr1 := { mr with segment_velocity :=
        mr.midpoint_velocity - mr.elapsed_time * mr.midpoint_acceleration +
          mm.linear_jerk_div2 * square mr.elapsed_time }
      _mp_aline_run_segment bf mr1
    else
      let fin := _mp_aline_run_finalize cfg bf mr
      (.ok, bf, fin.1, fin.2)
  else (.err, bf, mr, [])

/-- _mp_run_decel: the deceleration-region continuation, structured
exactly like _mp_run_accel with the decel phase velocities. -/
def _mp_run_decel (cfg : Config) (mm : MoveMaster) (mqAvail : Bool)
    (bf : mpBuffer n) (mr : MoveRuntime) :
    TG × mpBuffer n × MoveRuntime × List Emission :=
  if mqAvail = false then (.eagain, bf, mr, [])
  else if bf.move_state = .new then
    let bf1 := { bf with replannable := false }
    if bf1.length < cfg.MIN_LINE_LENGTH then (.ok, bf1, mr, [])
    else
      let midV := (bf1.start_velocity + bf1.end_velocity) / 2
      let time := bf1.length / midV
      let mrA := { mr with midpoint_velocity := midV, time := time,
                           midpoint_acceleration := time * mm.linear_jerk_div2,
                           target := bf1.target }
      let segVal : ℤ :=
        round ((((round (60000000 * (time / cfg.min_segment_time)) : ℤ) : ℝ)) / 2)
      let mrB := { mrA with segments := ((segVal : ℤ) : ℝ) }
      if segVal.toNat = 0 then (.ok, bf1, mrB, [])
      else
        let segT := time / (2 * ((segVal : ℤ) : ℝ))
        let mrC := { mrB with segment_time := segT,
                              elapsed_time := segT / 2,
                              microseconds := uSec segT,
                              segment_count := segVal.toNat }
        _mp_run_decel_phase cfg mm { bf1 with move_state := .running_1 } mrC
  else _mp_run_decel_phase cfg mm bf mr

/-- a concrete configuration used to instantiate counterexamples and
witnesses: Jm = 10^9 mm/min^3 and small positive thresholds of the
magnitudes the spec describes (values are external to src/). -/
def cfgC : Config :=
  { linear_jerk_max := 1000000000
    min_segment_len := 1 / 100
    min_segment_time := 1 / 10000
    EPSILON := 1 / 10000
    MIN_LINE_LENGTH := 3 / 100
    MP_MAX_LOOKBACK_DEPTH := 5 }

/-- a concrete move-master cursor at the origin moving along +X with the
jerk terms initialized for `cfgC` as mp_aline initializes them. -/
def mmC : MoveMaster :=
  { position := fun _ => 0
    target := fun _ => 0
    unit_vec := fun i => if i = 0 then 1 else 0
    ang_jerk_vec := fun _ => 0
    linear_jerk_div2 := 500000000
    linear_jerk_rad3 := cubert 1000000000 }

/-- the freshly initialized 8-buffer pool. -/
def pool0 : BufferPool 8 := _mp_init_buffers 8

/-- a pool with exactly one free write slot: buffer 0 is EMPTY at
`w = q = 0`, buffers 1-7 are PENDING. -/
def poolOneFree : BufferPool 8 :=
  { pool0 with bf := fun i =>
      if i = 0 then pool0.bf i
      else { pool0.bf i with buffer_state := .pending } }

/-- a completely full pool: every buffer is QUEUED, so no write buffer is
available. -/
def poolFull : BufferPool 8 :=
  { pool0 with bf := fun i => { pool0.bf i with buffer_state := .queued } }

/-- a pool holding a committed predecessor move in buffers 0-2 with region
lengths 4, 5 and 1 mm; buffer 7 (before the predecessor's head) is not
replannable, so the braking walk stops after one move. -/
def poolB : BufferPool 8 :=
  { pool0 with bf := fun i =>
      if i = 0 then { pool0.bf i with length := 4, replannable := true }
      else if i = 1 then { pool0.bf i with length := 5, replannable := true }
      else if i = 2 then { pool0.bf i with length := 1, replannable := true }
      else pool0.bf i }

/-- the newest move for the braking-pass scenario: 3 mm long, its head in
buffer 3, requesting an initial velocity of 10^6 mm/min. -/
def mB : MovePlanner 8 :=
  { _mp_clear_planner 8 with
    head := 3
    body := 4
    tail := 5
    length := 3
    initial_velocity_req := 1000000 }

/-- a committed predecessor buffer travelling along +X, used to witness
the angular-jerk-factor bounds. -/
def bufX : mpBuffer 8 :=
  { pool0.bf 0 with unit_vec := fun i => if i = 0 then 1 else 0 }

/-- a planning cursor whose current target is x = 5 while sitting at the
origin, used to exhibit the mm.target clobbering of mp_aline. -/
def mmA : MoveMaster :=
  { mmC with target := fun i => if i = 0 then 5 else 0 }

/-- a cleared planner struct for a 3 mm line, the input to
_mp_compute_regions in the region-closure counterexample. -/
def mC1 : MovePlanner 8 :=
  { _mp_clear_planner 8 with length := 3 }

/-- a fully planned 3 mm move (head 1 mm, body 1 mm, tail 1 mm,
accelerating from 1000 to a 2000 mm/min cruise and braking to zero) about
to be committed by _mp_queue_move. -/
def mQ : MovePlanner 8 :=
  { _mp_clear_planner 8 with
    length := 3
    head_length := 1
    body_length := 1
    tail_length := 1
    initial_velocity_req := 1000
    initial_velocity := 1000
    target_velocity := 2000
    cruise_velocity := 2000
    final_velocity := 0 }

/-- a queued quarter-circle arc buffer in the XY plane: radius 10 mm,
10 mm of travel, 0.1 min, starting angle 0, fresh (move state NEW). -/
def bufArc : mpBuffer 8 :=
  { pool0.bf 0 with
    move_type := .arc
    move_state := .new
    length := 10
    time := 1 / 10
    a := { theta := 0, radius := 10, angular_travel := 1, linear_travel := 0,
           axis_1 := 0, axis_2 := 1, axis_linear := 2 } }

/-- the zeroed runtime cursor (mr after mp_init). -/
def mr0 : MoveRuntime :=
  { run_flag := false
    position := fun _ => 0
    target := fun _ => 0
    length := 0
    time := 0
    microseconds := 0
    elapsed_time := 0
    midpoint_velocity := 0
    midpoint_acceleration := 0
    segments := 0
    segment_count := 0
    segment_time := 0
    segment_length := 0
    segment_velocity := 0
    segment_theta := 0
    center_1 := 0
    center_2 := 0 }

theorem update_preserves_ring (f : Fin n → mpBuffer n) (j : Fin n)
    (b : mpBuffer n) (hnx : b.nx = (f j).nx) (hpv : b.pv = (f j).pv) (i : Fin n) :
    (Function.update f j b i).nx = (f i).nx ∧
    (Function.update f j b i).pv = (f i).pv := by
  by_cases hi : i = j
  · subst hi
    simp [Function.update_apply, hnx, hpv]
  · simp [Function.update_apply, hi]

theorem snd_ite_pair {α β : Type} (c : Prop) [Decidable c] (a b : Option α)
    (p : β) : (if c then (a, p) else (b, p)).2 = p := by
  split <;> rfl

theorem get_write_buffer_preserves_ring (p : BufferPool n) (i : Fin n) :
    ((_mp_get_write_buffer p).2.bf i).nx = (p.bf i).nx ∧
    ((_mp_get_write_buffer p).2.bf i).pv = (p.bf i).pv := by
  unfold _mp_get_write_buffer
  dsimp only
  split
  · refine update_preserves_ring _ _ _ ?_ ?_ i <;> rfl
  · exact ⟨rfl, rfl⟩

theorem unget_write_buffer_preserves_ring (p : BufferPool n) (i : Fin n) :
    ((_mp_unget_write_buffer p).bf i).nx = (p.bf i).nx ∧
    ((_mp_unget_write_buffer p).bf i).pv = (p.bf i).pv := by
  unfold _mp_unget_write_buffer
  dsimp only
  refine update_preserves_ring _ _ _ ?_ ?_ i <;> rfl

theorem queue_write_buffer_preserves_ring (mt : MoveType) (p : BufferPool n)
    (i : Fin n) :
    ((_mp_queue_write_buffer mt p).bf i).nx = (p.bf i).nx ∧
    ((_mp_queue_write_buffer mt p).bf i).pv = (p.bf i).pv := by
  unfold _mp_queue_write_buffer
  dsimp only
  refine update_preserves_ring _ _ _ ?_ ?_ i <;> rfl

theorem get_run_buffer_preserves_ring (p : BufferPool n) (i : Fin n) :
    ((_mp_get_run_buffer p).2.bf i).nx = (p.bf i).nx ∧
    ((_mp_get_run_buffer p).2.bf i).pv = (p.bf i).pv := by
  unfold _mp_get_run_buffer
  dsimp only
  split
  · split <;> (refine update_preserves_ring _ _ _ ?_ ?_ i <;> rfl)
  · split <;> exact ⟨rfl, rfl⟩

theorem finalize_run_buffer_preserves_ring (p : BufferPool n) (i : Fin n) :
    ((_mp_finalize_run_buffer p).bf i).nx = (p.bf i).nx ∧
    ((_mp_finalize_run_buffer p).bf i).pv = (p.bf i).pv := by
  unfold _mp_finalize_run_buffer
  dsimp only
  split <;> constructor <;>
    · simp only [Function.update_apply]
      split_ifs <;> simp_all [_mp_clear_buffer]

/-- C9: every buffer-pool operation (_mp_get_write_buffer,
_mp_unget_write_buffer, _mp_queue_write_buffer, _mp_get_run_buffer,
_mp_finalize_run_buffer and _mp_clear_buffer) leaves every buffer's `pv`
and `nx` ring pointers equal to their prior values; only payload fields
are modified. -/
theorem c9_pool_ops_preserve_ring_pointers (p : BufferPool n) (i : Fin n)
    (mt : MoveType) :
    (((_mp_get_write_buffer p).2.bf i).nx = (p.bf i).nx ∧
     ((_mp_get_write_buffer p).2.bf i).pv = (p.bf i).pv) ∧
    (((_mp_unget_write_buffer p).bf i).nx = (p.bf i).nx ∧
     ((_mp_unget_write_buffer p).bf i).pv = (p.bf i).pv) ∧
    (((_mp_queue_write_buffer mt p).bf i).nx = (p.bf i).nx ∧
     ((_mp_queue_write_buffer mt p).bf i).pv = (p.bf i).pv) ∧
    (((_mp_get_run_buffer p).2.bf i).nx = (p.bf i).nx ∧
     ((_mp_get_run_buffer p).2.bf i).pv = (p.bf i).pv) ∧
    (((_mp_finalize_run_buffer p).bf i).nx = (p.bf i).nx ∧
     ((_mp_finalize_run_buffer p).bf i).pv = (p.bf i).pv) ∧
    ((_mp_clear_buffer (p.bf i)).nx = (p.bf i).nx ∧
     (_mp_clear_buffer (p.bf i)).pv = (p.bf i).pv) :=
  ⟨get_write_buffer_preserves_ring p i,
   unget_write_buffer_preserves_ring p i,
   queue_write_buffer_preserves_ring mt p i,
   get_run_buffer_preserves_ring p i,
   finalize_run_buffer_preserves_ring p i,
   rfl, rfl⟩

/-- C8: on a pool with no EMPTY slot at the write pointer, each of
mp_queued_stop, mp_queued_start and mp_queued_end enqueues nothing — the
pool is returned unchanged.  The C functions are void: they log a trap and
return no status at all, so BUFFER_FULL_FATAL is never surfaced to the
caller (the divergence from the claim). -/
theorem c8_queued_stops_enqueue_nothing_and_return_no_status :
    mp_queued_stop poolFull = poolFull ∧
    mp_queued_start poolFull = poolFull ∧
    mp_queued_end poolFull = poolFull :=
  ⟨rfl, rfl, rfl⟩

/-- C2: evaluating _mp_set_braking_velocity on a chain whose newest move
is 3 mm long with a 10 mm replannable predecessor (buffers 0-2, lengths
4 + 5 + 1): the walk accumulates the full chain length 13 into `p.length`,
yet the braking bound applied to the requested initial velocity is
computed from `m.length` = 3 alone — min(V(0, 3), Vir) — and
V(0, 3) < V(0, 13), so the bound is strictly tighter than the documented
one computed over the whole chain. -/
theorem poolB_pv_3 : (poolB.bf 3).pv = 2 := rfl

theorem poolB_pv_2 : (poolB.bf 2).pv = 1 := rfl

theorem poolB_pv_1 : (poolB.bf 1).pv = 0 := rfl

theorem poolB_pv_0 : (poolB.bf 0).pv = 7 := rfl

theorem poolB_rep_7 : (poolB.bf 7).replannable = false := rfl

theorem poolB_len_0 : (poolB.bf 0).length = 4 := rfl

theorem poolB_len_1 : (poolB.bf 1).length = 5 := rfl

theorem poolB_len_2 : (poolB.bf 2).length = 1 := rfl

theorem poolB_walk :
    _mp_braking_walk poolB (4 + 1) (3 : Fin 8) (3 : ℝ) =
      ((0 : Fin 8), (1 : Fin 8), (2 : Fin 8), (13 : ℝ)) := by
  rw [_mp_braking_walk]
  rw [poolB_pv_3, poolB_pv_2, poolB_pv_1, poolB_pv_0, poolB_rep_7,
    poolB_len_0, poolB_len_1, poolB_len_2]
  norm_num

theorem c2_braking_velocity_uses_newest_length_only :
    (_mp_set_braking_velocity cfgC mmC mB poolB).length = 13 ∧
    (_mp_set_braking_velocity cfgC mmC mB poolB).initial_velocity_req =
      min (_mp_get_velocity mmC 0 3) 1000000 ∧
    _mp_get_velocity mmC 0 3 < _mp_get_velocity mmC 0 13 := by
  refine ⟨?_, ?_, ?_⟩
  · have e : (_mp_set_braking_velocity cfgC mmC mB poolB).length =
        (_mp_braking_walk poolB (4 + 1) (3 : Fin 8) (3 : ℝ)).2.2.2 := rfl
    rw [e, poolB_walk]
  · rfl
  · unfold _mp_get_velocity
    have hrad : 0 < mmC.linear_jerk_rad3 := by
      unfold mmC cubert
      exact Real.rpow_pos_of_pos (by norm_num) _
    have hlt : (3 : ℝ) ^ ((0.6666667 : ℝ)) < (13 : ℝ) ^ ((0.6666667 : ℝ)) :=
      Real.rpow_lt_rpow (by norm_num) (by norm_num) (by norm_num)
    have := mul_lt_mul_of_pos_left hlt hrad
    linarith

/-- C6: for two unit direction vectors over the six axes, the angular jerk
factor cos(acos(dot)/2) lies in [0, 1]; it equals 1 when the previous
buffer's unit vector is identical to the current one and 0 when it is the
exact reversal. -/
theorem c6_angular_jerk_factor_bounds (mm : MoveMaster) (p : mpBuffer n)
    (hm : mm.unit_vec 0 * mm.unit_vec 0 + mm.unit_vec 1 * mm.unit_vec 1 +
          mm.unit_vec 2 * mm.unit_vec 2 + mm.unit_vec 3 * mm.unit_vec 3 +
          mm.unit_vec 4 * mm.unit_vec 4 + mm.unit_vec 5 * mm.unit_vec 5 = 1)
    (_hp : p.unit_vec 0 * p.unit_vec 0 + p.unit_vec 1 * p.unit_vec 1 +
          p.unit_vec 2 * p.unit_vec 2 + p.unit_vec 3 * p.unit_vec 3 +
          p.unit_vec 4 * p.unit_vec 4 + p.unit_vec 5 * p.unit_vec 5 = 1) :
    (0 ≤ _mp_get_angular_jerk_factor mm p ∧ _mp_get_angular_jerk_factor mm p ≤ 1) ∧
    ((∀ i, p.unit_vec i = mm.unit_vec i) → _mp_get_angular_jerk_factor mm p = 1) ∧
    ((∀ i, p.unit_vec i = -(mm.unit_vec i)) → _mp_get_angular_jerk_factor mm p = 0) := by
  unfold _mp_get_angular_jerk_factor
  refine ⟨⟨?_, Real.cos_le_one _⟩, ?_, ?_⟩
  · apply Real.cos_nonneg_of_mem_Icc
    constructor
    · have := Real.arccos_nonneg (mm.unit_vec 0 * p.unit_vec 0 +
        mm.unit_vec 1 * p.unit_vec 1 + mm.unit_vec 2 * p.unit_vec 2 +
        mm.unit_vec 3 * p.unit_vec 3 + mm.unit_vec 4 * p.unit_vec 4 +
        mm.unit_vec 5 * p.unit_vec 5)
      have hpi : (0 : ℝ) < Real.pi := Real.pi_pos
      linarith
    · have := Real.arccos_le_pi (mm.unit_vec 0 * p.unit_vec 0 +
        mm.unit_vec 1 * p.unit_vec 1 + mm.unit_vec 2 * p.unit_vec 2 +
        mm.unit_vec 3 * p.unit_vec 3 + mm.unit_vec 4 * p.unit_vec 4 +
        mm.unit_vec 5 * p.unit_vec 5)
      linarith
  · intro hid
    have hc : mm.unit_vec 0 * p.unit_vec 0 + mm.unit_vec 1 * p.unit_vec 1 +
        mm.unit_vec 2 * p.unit_vec 2 + mm.unit_vec 3 * p.unit_vec 3 +
        mm.unit_vec 4 * p.unit_vec 4 + mm.unit_vec 5 * p.unit_vec 5 = 1 := by
      rw [hid 0, hid 1, hid 2, hid 3, hid 4, hid 5]
      linarith [hm]
    rw [hc]
    dsimp only
    rw [Real.arccos_one]
    norm_num
  · intro hrev
    have hc : mm.unit_vec 0 * p.unit_vec 0 + mm.unit_vec 1 * p.unit_vec 1 +
        mm.unit_vec 2 * p.unit_vec 2 + mm.unit_vec 3 * p.unit_vec 3 +
        mm.unit_vec 4 * p.unit_vec 4 + mm.unit_vec 5 * p.unit_vec 5 = -1 := by
      rw [hrev 0, hrev 1, hrev 2, hrev 3, hrev 4, hrev 5]
      linarith [hm]
    rw [hc]
    dsimp only
    rw [Real.arccos_neg_one]
    exact Real.cos_pi_div_two

/-- C6 witness: the +X unit cursor `mmC` against the +X predecessor
buffer `bufX`: both unit-vector hypotheses hold and the angular jerk
factor obeys the bounds and the identical-vector case. -/
theorem c6_angular_jerk_factor_bounds_witness :
    (mmC.unit_vec 0 * mmC.unit_vec 0 + mmC.unit_vec 1 * mmC.unit_vec 1 +
     mmC.unit_vec 2 * mmC.unit_vec 2 + mmC.unit_vec 3 * mmC.unit_vec 3 +
     mmC.unit_vec 4 * mmC.unit_vec 4 + mmC.unit_vec 5 * mmC.unit_vec 5 = 1) ∧
    ((0 ≤ _mp_get_angular_jerk_factor mmC bufX ∧
      _mp_get_angular_jerk_factor mmC bufX ≤ 1) ∧
     ((∀ i, bufX.unit_vec i = mmC.unit_vec i) →
       _mp_get_angular_jerk_factor mmC bufX = 1) ∧
     ((∀ i, bufX.unit_vec i = -(mmC.unit_vec i)) →
       _mp_get_angular_jerk_factor mmC bufX = 0)) := by
  have hmv : mmC.unit_vec 0 = 1 ∧ mmC.unit_vec 1 = 0 ∧ mmC.unit_vec 2 = 0 ∧
      mmC.unit_vec 3 = 0 ∧ mmC.unit_vec 4 = 0 ∧ mmC.unit_vec 5 = 0 :=
    ⟨rfl, rfl, rfl, rfl, rfl, rfl⟩
  have hbv : bufX.unit_vec 0 = 1 ∧ bufX.unit_vec 1 = 0 ∧ bufX.unit_vec 2 = 0 ∧
      bufX.unit_vec 3 = 0 ∧ bufX.unit_vec 4 = 0 ∧ bufX.unit_vec 5 = 0 :=
    ⟨rfl, rfl, rfl, rfl, rfl, rfl⟩
  have hm1 : mmC.unit_vec 0 * mmC.unit_vec 0 + mmC.unit_vec 1 * mmC.unit_vec 1 +
      mmC.unit_vec 2 * mmC.unit_vec 2 + mmC.unit_vec 3 * mmC.unit_vec 3 +
      mmC.unit_vec 4 * mmC.unit_vec 4 + mmC.unit_vec 5 * mmC.unit_vec 5 = 1 := by
    rw [hmv.1, hmv.2.1, hmv.2.2.1, hmv.2.2.2.1, hmv.2.2.2.2.1, hmv.2.2.2.2.2]
    norm_num
  have hb1 : bufX.unit_vec 0 * bufX.unit_vec 0 + bufX.unit_vec 1 * bufX.unit_vec 1 +
      bufX.unit_vec 2 * bufX.unit_vec 2 + bufX.unit_vec 3 * bufX.unit_vec 3 +
      bufX.unit_vec 4 * bufX.unit_vec 4 + bufX.unit_vec 5 * bufX.unit_vec 5 = 1 := by
    rw [hbv.1, hbv.2.1, hbv.2.2.1, hbv.2.2.2.1, hbv.2.2.2.2.1, hbv.2.2.2.2.2]
    norm_num
  exact ⟨hm1, c6_angular_jerk_factor_bounds mmC bufX hm1 hb1⟩

/-- C10: a queued ACCEL or DECEL region buffer whose length is below
MIN_LINE_LENGTH is discarded by the first runner invocation (motor queue
room available, move state NEW): the replannable flag is cleared, the
runner returns OK, no motor-queue line is emitted and the runtime cursor
`mr` (in particular mr.position) is left untouched. -/
theorem c10_short_region_discarded (cfg : Config) (mm : MoveMaster)
    (bf : mpBuffer n) (mr : MoveRuntime)
    (hnew : bf.move_state = .new) (hshort : bf.length < cfg.MIN_LINE_LENGTH) :
    ((_mp_run_accel cfg mm true bf mr).1 = .ok ∧
     (_mp_run_accel cfg mm true bf mr).2.1.replannable = false ∧
     (_mp_run_accel cfg mm true bf mr).2.2.2 = [] ∧
     (_mp_run_accel cfg mm true bf mr).2.2.1 = mr) ∧
    ((_mp_run_decel cfg mm true bf mr).1 = .ok ∧
     (_mp_run_decel cfg mm true bf mr).2.1.replannable = false ∧
     (_mp_run_decel cfg mm true bf mr).2.2.2 = [] ∧
     (_mp_run_decel cfg mm true bf mr).2.2.1 = mr) := by
  unfold _mp_run_accel _mp_run_decel
  have hsh : ({ bf with replannable := false } : mpBuffer n).length <
      cfg.MIN_LINE_LENGTH := hshort
  simp [hnew, hsh]

/-- C10 witness: the zeroed buffer of the initialized pool (move state
NEW, length 0) against the concrete configuration: both hypotheses hold
and both runners discard it. -/
theorem c10_short_region_discarded_witness :
    ((pool0.bf 0).move_state = .new ∧
     (pool0.bf 0).length < cfgC.MIN_LINE_LENGTH) ∧
    (((_mp_run_accel cfgC mmC true (pool0.bf 0) mr0).1 = .ok ∧
      (_mp_run_accel cfgC mmC true (pool0.bf 0) mr0).2.1.replannable = false ∧
      (_mp_run_accel cfgC mmC true (pool0.bf 0) mr0).2.2.2 = [] ∧
      (_mp_run_accel cfgC mmC true (pool0.bf 0) mr0).2.2.1 = mr0) ∧
     ((_mp_run_decel cfgC mmC true (pool0.bf 0) mr0).1 = .ok ∧
      (_mp_run_decel cfgC mmC true (pool0.bf 0) mr0).2.1.replannable = false ∧
      (_mp_run_decel cfgC mmC true (pool0.bf 0) mr0).2.2.2 = [] ∧
      (_mp_run_decel cfgC mmC true (pool0.bf 0) mr0).2.2.1 = mr0)) := by
  have hlen : (pool0.bf 0).length = 0 := rfl
  have hshort : (pool0.bf 0).length < cfgC.MIN_LINE_LENGTH := by
    rw [hlen]
    norm_num [cfgC]
  exact ⟨⟨rfl, hshort⟩,
    c10_short_region_discarded cfgC mmC (pool0.bf 0) mr0 rfl hshort⟩

/-- C7: the arc runner with motor-queue room available.  On first entry
(move state NEW) the resulting runtime state satisfies
segments = ceil(length / min_segment_len),
segment_theta = angular_travel / segments,
segment_length = linear_travel / segments,
microseconds = uSec(time / segments), and the circle center
c1 = position[axis_1] - sin(theta0) * radius,
c2 = position[axis_2] - cos(theta0) * radius; the same call already emits
its first segment.  Each invocation in the RUNNING state emits exactly one
line segment whose plane targets lie on the circle, decrements
segment_count, and returns EAGAIN while the count is still positive and OK
when it reaches zero. -/
theorem c7_run_arc_behavior (cfg : Config) (bf : mpBuffer n) (mr : MoveRuntime)
    (h12 : bf.a.axis_1 ≠ bf.a.axis_2) (h1l : bf.a.axis_1 ≠ bf.a.axis_linear)
    (h2l : bf.a.axis_2 ≠ bf.a.axis_linear) :
    (bf.move_state = .new →
      ((_mp_run_arc cfg true bf mr).2.2.1.segments =
         ((⌈bf.length / cfg.min_segment_len⌉ : ℤ) : ℝ) ∧
       (_mp_run_arc cfg true bf mr).2.2.1.segment_theta =
         bf.a.angular_travel / ((⌈bf.length / cfg.min_segment_len⌉ : ℤ) : ℝ) ∧
       (_mp_run_arc cfg true bf mr).2.2.1.segment_length =
         bf.a.linear_travel / ((⌈bf.length / cfg.min_segment_len⌉ : ℤ) : ℝ) ∧
       (_mp_run_arc cfg true bf mr).2.2.1.microseconds =
         uSec (bf.time / ((⌈bf.length / cfg.min_segment_len⌉ : ℤ) : ℝ)) ∧
       (_mp_run_arc cfg true bf mr).2.2.1.center_1 =
         mr.position bf.a.axis_1 - Real.sin bf.a.theta * bf.a.radius ∧
       (_mp_run_arc cfg true bf mr).2.2.1.center_2 =
         mr.position bf.a.axis_2 - Real.cos bf.a.theta * bf.a.radius ∧
       (_mp_run_arc cfg true bf mr).2.2.2.length = 1 ∧
       (_mp_run_arc cfg true bf mr).2.2.1.segment_count =
         (⌈bf.length / cfg.min_segment_len⌉).toNat - 1 ∧
       ((_mp_run_arc cfg true bf mr).1 = .eagain ↔
         0 < (⌈bf.length / cfg.min_segment_len⌉).toNat - 1) ∧
       ((_mp_run_arc cfg true bf mr).1 = .ok ↔
         (⌈bf.length / cfg.min_segment_len⌉).toNat - 1 = 0))) ∧
    (bf.move_state = .running_1 →
      ((_mp_run_arc cfg true bf mr).2.2.2.length = 1 ∧
       (_mp_run_arc cfg true bf mr).2.2.1.segment_count = mr.segment_count - 1 ∧
       (_mp_run_arc cfg true bf mr).2.2.1.position bf.a.axis_1 =
         mr.center_1 + Real.sin (bf.a.theta + mr.segment_theta) * bf.a.radius ∧
       (_mp_run_arc cfg true bf mr).2.2.1.position bf.a.axis_2 =
         mr.center_2 + Real.cos (bf.a.theta + mr.segment_theta) * bf.a.radius ∧
       (_mp_run_arc cfg true bf mr).2.2.1.position bf.a.axis_linear =
         mr.target bf.a.axis_linear + mr.segment_length ∧
       ((_mp_run_arc cfg true bf mr).1 = .eagain ↔ 0 < mr.segment_count - 1) ∧
       ((_mp_run_arc cfg true bf mr).1 = .ok ↔ mr.segment_count - 1 = 0))) := by
  constructor
  · intro hnew
    by_cases hc : 0 < (⌈bf.length / cfg.min_segment_len⌉).toNat - 1
    · simp [_mp_run_arc, hnew, hc]
      omega
    · simp [_mp_run_arc, hnew, hc]
      omega
  · intro hrun
    have hnotnew : ¬(bf.move_state = .new) := by
      rw [hrun]
      simp
    by_cases hc : 0 < mr.segment_count - 1
    · simp [_mp_run_arc, hrun, hnotnew, hc, Function.update_apply, h12, h1l, h2l,
        h12.symm, h1l.symm, h2l.symm]
      omega
    · simp [_mp_run_arc, hrun, hnotnew, hc, Function.update_apply, h12, h1l, h2l,
        h12.symm, h1l.symm, h2l.symm]
      omega

/-- C7 witness: a concrete quarter-circle arc buffer (`bufArc`, NEW, 10 mm
long) under the concrete configuration: the axis hypotheses hold and the
first invocation computes the documented initialization values and emits
its first segment. -/
theorem c7_run_arc_behavior_witness :
    (bufArc.a.axis_1 ≠ bufArc.a.axis_2 ∧ bufArc.a.axis_1 ≠ bufArc.a.axis_linear ∧
     bufArc.a.axis_2 ≠ bufArc.a.axis_linear ∧ bufArc.move_state = .new) ∧
    ((_mp_run_arc cfgC true bufArc mr0).2.2.1.segments =
       ((⌈bufArc.length / cfgC.min_segment_len⌉ : ℤ) : ℝ) ∧
     (_mp_run_arc cfgC true bufArc mr0).2.2.1.segment_theta =
       bufArc.a.angular_travel / ((⌈bufArc.length / cfgC.min_segment_len⌉ : ℤ) : ℝ) ∧
     (_mp_run_arc cfgC true bufArc mr0).2.2.1.segment_length =
       bufArc.a.linear_travel / ((⌈bufArc.length / cfgC.min_segment_len⌉ : ℤ) : ℝ) ∧
     (_mp_run_arc cfgC true bufArc mr0).2.2.1.microseconds =
       uSec (bufArc.time / ((⌈bufArc.length / cfgC.min_segment_len⌉ : ℤ) : ℝ)) ∧
     (_mp_run_arc cfgC true bufArc mr0).2.2.1.center_1 =
       mr0.position bufArc.a.axis_1 - Real.sin bufArc.a.theta * bufArc.a.radius ∧
     (_mp_run_arc cfgC true bufArc mr0).2.2.1.center_2 =
       mr0.position bufArc.a.axis_2 - Real.cos bufArc.a.theta * bufArc.a.radius ∧
     (_mp_run_arc cfgC true bufArc mr0).2.2.2.length = 1 ∧
     (_mp_run_arc cfgC true bufArc mr0).2.2.1.segment_count =
       (⌈bufArc.length / cfgC.min_segment_len⌉).toNat - 1 ∧
     ((_mp_run_arc cfgC true bufArc mr0).1 = .eagain ↔
       0 < (⌈bufArc.length / cfgC.min_segment_len⌉).toNat - 1) ∧
     ((_mp_run_arc cfgC true bufArc mr0).1 = .ok ↔
       (⌈bufArc.length / cfgC.min_segment_len⌉).toNat - 1 = 0)) := by
  have h12 : bufArc.a.axis_1 ≠ bufArc.a.axis_2 := by decide
  have h1l : bufArc.a.axis_1 ≠ bufArc.a.axis_linear := by decide
  have h2l : bufArc.a.axis_2 ≠ bufArc.a.axis_linear := by decide
  exact ⟨⟨h12, h1l, h2l, rfl⟩,
    (c7_run_arc_behavior cfgC bufArc mr0 h12 h1l h2l).1 rfl⟩

/-- C5 counterexample: committing an aline into a pool with exactly one
free write slot (`poolOneFree`): _mp_queue_move returns BUFFER_FULL_FATAL,
yet the head region has already been committed - buffer 0 is QUEUED and
carries the head's velocities and length - so a proper subset (one of
three) of the move's region buffers remains in the queue, contradicting
the claim that no partial state is left. -/
theorem c5_partial_commit_counterexample :
    (_mp_queue_move cfgC mQ mmC poolOneFree).1 = .buffer_full_fatal ∧
    ((_mp_queue_move cfgC mQ mmC poolOneFree).2.2.2.bf 0).buffer_state = .queued ∧
    ((_mp_queue_move cfgC mQ mmC poolOneFree).2.2.2.bf 0).start_velocity =
      mQ.initial_velocity ∧
    ((_mp_queue_move cfgC mQ mmC poolOneFree).2.2.2.bf 0).length = mQ.head_length :=
  ⟨rfl, rfl, rfl, rfl⟩

theorem queue_buffer_keeps_no_loading (cfg : Config) (Vs Ve Vr len : ℝ)
    (mm : MoveMaster) (pool : BufferPool n)
    (hqw : pool.q = pool.w) (hnl : ∀ i, (pool.bf i).buffer_state ≠ .loading) :
    (_mp_queue_buffer cfg Vs Ve Vr len mm pool).2.2.q =
      (_mp_queue_buffer cfg Vs Ve Vr len mm pool).2.2.w ∧
    ∀ i, ((_mp_queue_buffer cfg Vs Ve Vr len mm pool).2.2.bf i).buffer_state ≠
      .loading := by
  unfold _mp_queue_buffer _mp_get_write_buffer _mp_queue_write_buffer
  by_cases h : (pool.bf pool.w).buffer_state = .empty
  · simp only [if_pos h]
    rw [hqw]
    constructor
    · simp [Function.update_apply, _mp_clear_buffer]
    · intro i
      simp only [Function.update_apply]
      by_cases hi : i = pool.w <;> simp [hi, hnl i]
  · simp only [if_neg h]
    exact ⟨hqw, hnl⟩

/-- C5 (amended): whenever _mp_queue_move returns BUFFER_FULL_FATAL on a
pool with aligned write/commit pointers and no buffer mid-acquisition, no
buffer is left in the LOADING state: _mp_queue_buffer either commits the
buffer it acquires in the same call or acquires nothing.  (Regions already
committed stay committed - see the counterexample - so the original "no
partial state" claim holds only in this weakened form.) -/
theorem c5_no_loading_on_fatal_amended (cfg : Config) (m : MovePlanner n)
    (mm : MoveMaster) (pool : BufferPool n)
    (hqw : pool.q = pool.w) (hnl : ∀ i, (pool.bf i).buffer_state ≠ .loading)
    (_hfatal : (_mp_queue_move cfg m mm pool).1 = .buffer_full_fatal) :
    ∀ i, ((_mp_queue_move cfg m mm pool).2.2.2.bf i).buffer_state ≠ .loading := by
  unfold _mp_queue_move
  have h1 := queue_buffer_keeps_no_loading cfg m.initial_velocity m.cruise_velocity
    m.initial_velocity_req m.head_length mm pool hqw hnl
  rcases hq1 : _mp_queue_buffer cfg m.initial_velocity m.cruise_velocity
      m.initial_velocity_req m.head_length mm pool with ⟨o1, mm1, p1⟩
  rw [hq1] at h1
  clear hq1
  rcases o1 with _ | i1
  · exact h1.2
  · dsimp only
    have h2 := queue_buffer_keeps_no_loading cfg m.cruise_velocity m.cruise_velocity
      m.target_velocity m.body_length mm1 p1 h1.1 h1.2
    rcases hq2 : _mp_queue_buffer cfg m.cruise_velocity m.cruise_velocity
        m.target_velocity m.body_length mm1 p1 with ⟨o2, mm2, p2⟩
    rw [hq2] at h2
    clear hq2
    rcases o2 with _ | i2
    · exact h2.2
    · dsimp only
      have h3 := queue_buffer_keeps_no_loading cfg m.cruise_velocity m.final_velocity
        m.target_velocity m.tail_length mm2 p2 h2.1 h2.2
      rcases hq3 : _mp_queue_buffer cfg m.cruise_velocity m.final_velocity
          m.target_velocity m.tail_length mm2 p2 with ⟨o3, mm3, p3⟩
      rw [hq3] at h3
      clear hq3
      rcases o3 with _ | i3
      · exact h3.2
      · exact h3.2

/-- C5 witness for the amended theorem: on the completely QUEUED pool the
commit fails fatally and the resulting pool has no LOADING buffer. -/
theorem c5_no_loading_on_fatal_amended_witness :
    (poolFull.q = poolFull.w ∧
     (∀ i, (poolFull.bf i).buffer_state ≠ .loading) ∧
     (_mp_queue_move cfgC mQ mmC poolFull).1 = .buffer_full_fatal) ∧
    (∀ i, ((_mp_queue_move cfgC mQ mmC poolFull).2.2.2.bf i).buffer_state ≠
      .loading) := by
  have hq : ∀ i : Fin 8, (poolFull.bf i).buffer_state = .queued := fun _ => rfl
  have hnl : ∀ i : Fin 8, (poolFull.bf i).buffer_state ≠ .loading := by
    intro i
    simp [hq i]
  exact ⟨⟨rfl, hnl, rfl⟩,
    c5_no_loading_on_fatal_amended cfgC mQ mmC poolFull rfl hnl rfl⟩

theorem queue_move_status (cfg : Config) (m : MovePlanner n) (mm : MoveMaster)
    (pool : BufferPool n) :
    (_mp_queue_move cfg m mm pool).1 = .ok ∨
    (_mp_queue_move cfg m mm pool).1 = .buffer_full_fatal := by
  unfold _mp_queue_move
  rcases _mp_queue_buffer cfg m.initial_velocity m.cruise_velocity
      m.initial_velocity_req m.head_length mm pool with ⟨o1, mm1, p1⟩
  rcases o1 with _ | i1
  · right
    rfl
  · dsimp only
    rcases _mp_queue_buffer cfg m.cruise_velocity m.cruise_velocity
        m.target_velocity m.body_length mm1 p1 with ⟨o2, mm2, p2⟩
    rcases o2 with _ | i2
    · right
      rfl
    · dsimp only
      rcases _mp_queue_buffer cfg m.cruise_velocity m.final_velocity
          m.target_velocity m.tail_length mm2 p2 with ⟨o3, mm3, p3⟩
      rcases o3 with _ | i3
      · right
        rfl
      · left
        rfl

/-- C4 counterexample: mp_aline called with a zero-displacement target
(length 0 < MIN_LINE_LENGTH, minutes = 1 ≥ EPSILON) returns
ZERO_LENGTH_MOVE, but the planner cursor mm.target has been overwritten
with the requested target before the length check: it no longer holds its
prior value (x was 5, now 0). -/
theorem c4_zero_length_move_counterexample :
    (mp_aline cfgC .continuous (fun _ => 0) 1 mmA pool0).1 = .zero_length_move ∧
    (mp_aline cfgC .continuous (fun _ => 0) 1 mmA pool0).2.1.target 0 ≠
      mmA.target 0 := by
  have hlen : mp_get_axis_vector_length (fun _ => 0) mmA.position = 0 := by
    unfold mp_get_axis_vector_length square
    have hz : ∀ i : Fin 6, mmA.position i = 0 := fun _ => rfl
    simp [hz]
  unfold mp_aline
  rw [if_neg (by norm_num [cfgC] : ¬((1 : ℝ) < cfgC.EPSILON))]
  dsimp only
  rw [hlen]
  rw [if_pos (by norm_num [cfgC] : (0 : ℝ) < cfgC.MIN_LINE_LENGTH)]
  constructor
  · rfl
  · show (0 : ℝ) ≠ mmA.target 0
    have : mmA.target 0 = 5 := rfl
    rw [this]
    norm_num

/-- C4 (amended): when mp_line returns ZERO_LENGTH_MOVE (on a pool whose
ring pointers are consistent), the planner master cursor is unchanged, the
three pool pointers are unchanged and every buffer keeps its buffer state
(no buffer is consumed or left non-EMPTY).  When mp_aline returns
ZERO_LENGTH_MOVE the pool and mm.position and mm.unit_vec are unchanged,
but mm.target is either its old value (minutes below EPSILON) or already
overwritten with the requested target (length below MIN_LINE_LENGTH). -/
theorem ritorno_status_ne_zero (q : TG × MovePlanner n × MoveMaster × BufferPool n)
    (h : q.1 = .ok ∨ q.1 = .buffer_full_fatal) :
    (_mp_ritorno q).1 ≠ .zero_length_move := by
  unfold _mp_ritorno
  rcases h with h | h <;> simp [h]

theorem aline_finish_status_ne_zero [NeZero n] (cfg : Config)
    (q : TG × MovePlanner n × MoveMaster × BufferPool n)
    (h : q.1 = .ok ∨ q.1 = .buffer_full_fatal) :
    (_mp_aline_finish cfg q).1 ≠ .zero_length_move := by
  unfold _mp_aline_finish
  rcases h with h | h <;> simp [h]

theorem c4_zero_length_amended [NeZero n] (cfg : Config) (pm : PathMode)
    (target : Vec6) (minutes : ℝ) (mrPos : Vec6) (mm : MoveMaster)
    (pool : BufferPool n)
    (hring : ∀ i, (pool.bf ((pool.bf i).nx)).pv = i) :
    ((mp_line cfg target minutes mrPos mm pool).1 = .zero_length_move →
      (mp_line cfg target minutes mrPos mm pool).2.1 = mm ∧
      (mp_line cfg target minutes mrPos mm pool).2.2.w = pool.w ∧
      (mp_line cfg target minutes mrPos mm pool).2.2.q = pool.q ∧
      (mp_line cfg target minutes mrPos mm pool).2.2.r = pool.r ∧
      ∀ i, ((mp_line cfg target minutes mrPos mm pool).2.2.bf i).buffer_state =
        (pool.bf i).buffer_state) ∧
    ((mp_aline cfg pm target minutes mm pool).1 = .zero_length_move →
      (mp_aline cfg pm target minutes mm pool).2.1.position = mm.position ∧
      (mp_aline cfg pm target minutes mm pool).2.1.unit_vec = mm.unit_vec ∧
      (mp_aline cfg pm target minutes mm pool).2.2 = pool ∧
      ((mp_aline cfg pm target minutes mm pool).2.1.target = mm.target ∨
       (mp_aline cfg pm target minutes mm pool).2.1.target = target)) := by
  constructor
  · unfold mp_line
    dsimp only
    split
    next h0 =>
      intro hz
      exact ⟨rfl, rfl, rfl, rfl, fun i => rfl⟩
    next h0 =>
      unfold _mp_get_write_buffer
      dsimp only
      by_cases h1 : (pool.bf pool.w).buffer_state = .empty
      · rw [if_pos h1]
        dsimp only
        split
        next h2 =>
          intro hz
          unfold _mp_unget_write_buffer
          dsimp only
          refine ⟨rfl, ?_, rfl, rfl, ?_⟩
          · have hpv := hring pool.w
            simp only [Function.update_apply]
            by_cases he : (pool.bf pool.w).nx = pool.w
            · rw [he] at hpv
              simp [he, _mp_clear_buffer, Function.update_apply, hpv]
            · simp [he, _mp_clear_buffer, Function.update_apply, hpv]
          · intro i
            have hpv := hring pool.w
            simp only [Function.update_apply]
            by_cases he : (pool.bf pool.w).nx = pool.w
            · rw [he] at hpv
              by_cases hi : i = pool.w
              · simp [he, hi, hpv, _mp_clear_buffer, Function.update_apply, h1]
              · simp [he, hi, hpv, _mp_clear_buffer, Function.update_apply, h1]
            · by_cases hi : i = pool.w
              · simp [he, hi, hpv, _mp_clear_buffer, Function.update_apply, h1]
              · simp [he, hi, hpv, _mp_clear_buffer, Function.update_apply, h1]
        next h2 =>
          intro hz
          exact absurd hz (by simp)
      · rw [if_neg h1]
        dsimp only
        intro hz
        exact absurd hz (by simp)
  · unfold mp_aline
    dsimp only
    split
    next h0 =>
      intro hz
      exact ⟨rfl, rfl, rfl, Or.inl rfl⟩
    next h0 =>
      split
      next h2 =>
        intro hz
        exact ⟨rfl, rfl, rfl, Or.inr rfl⟩
      next h2 =>
        split
        next h3 =>
          intro hz
          exact absurd hz (ritorno_status_ne_zero _ (queue_move_status _ _ _ _))
        next h3 =>
          split <;> split
          all_goals intro hz
          · exact absurd hz (by simp)
          · exact absurd hz
              (aline_finish_status_ne_zero _ _ (queue_move_status _ _ _ _))
          · exact absurd hz (by simp)
          · exact absurd hz
              (aline_finish_status_ne_zero _ _ (queue_move_status _ _ _ _))


/-- C4 witness for the amended theorem: the freshly initialized pool has
consistent ring pointers, and instantiating the amended theorem at a
zero-duration, zero-displacement call yields both guarantees. -/
theorem c4_zero_length_amended_witness :
    (∀ i : Fin 8, (pool0.bf ((pool0.bf i).nx)).pv = i) ∧
    (((mp_line cfgC (fun _ => 0) 0 (fun _ => 0) mmC pool0).1 = .zero_length_move →
      (mp_line cfgC (fun _ => 0) 0 (fun _ => 0) mmC pool0).2.1 = mmC ∧
      (mp_line cfgC (fun _ => 0) 0 (fun _ => 0) mmC pool0).2.2.w = pool0.w ∧
      (mp_line cfgC (fun _ => 0) 0 (fun _ => 0) mmC pool0).2.2.q = pool0.q ∧
      (mp_line cfgC (fun _ => 0) 0 (fun _ => 0) mmC pool0).2.2.r = pool0.r ∧
      ∀ i, ((mp_line cfgC (fun _ => 0) 0 (fun _ => 0) mmC pool0).2.2.bf
        i).buffer_state = (pool0.bf i).buffer_state) ∧
    ((mp_aline cfgC .continuous (fun _ => 0) 0 mmC pool0).1 = .zero_length_move →
      (mp_aline cfgC .continuous (fun _ => 0) 0 mmC pool0).2.1.position =
        mmC.position ∧
      (mp_aline cfgC .continuous (fun _ => 0) 0 mmC pool0).2.1.unit_vec =
        mmC.unit_vec ∧
      (mp_aline cfgC .continuous (fun _ => 0) 0 mmC pool0).2.2 = pool0 ∧
      ((mp_aline cfgC .continuous (fun _ => 0) 0 mmC pool0).2.1.target =
         mmC.target ∨
       (mp_aline cfgC .continuous (fun _ => 0) 0 mmC pool0).2.1.target =
         (fun _ => 0)))) := by
  have hr : ∀ i : Fin 8, (pool0.bf ((pool0.bf i).nx)).pv = i := by
    intro i
    fin_cases i <;> rfl
  exact ⟨hr, c4_zero_length_amended cfgC .continuous (fun _ => 0) 0
    (fun _ => 0) mmC pool0 hr⟩

theorem cubert_1e9 : cubert 1000000000 = 1000 := by
  unfold cubert
  have h1 : (1000000000 : ℝ) = (1000 : ℝ) ^ ((3 : ℕ) : ℝ) := by
    rw [Real.rpow_natCast]
    norm_num
  rw [h1, ← Real.rpow_mul (by norm_num : (0 : ℝ) ≤ 1000)]
  rw [show ((3 : ℕ) : ℝ) * ((1 : ℝ) / 3) = 1 by norm_num, Real.rpow_one]

theorem sqrt_one_over_1e6 : Real.sqrt (1 / 1000000) = 1 / 1000 := by
  rw [show (1 / 1000000 : ℝ) = (1 / 1000) ^ 2 by norm_num]
  exact Real.sqrt_sq (by norm_num)

theorem sqrt_one_over_1e4 : Real.sqrt (1 / 10000) = 1 / 100 := by
  rw [show (1 / 10000 : ℝ) = (1 / 100) ^ 2 by norm_num]
  exact Real.sqrt_sq (by norm_num)

theorem length_1000_0 : _mp_get_length cfgC 1000 0 = 1 := by
  unfold _mp_get_length
  dsimp only
  rw [show |(0 : ℝ) - 1000| = 1000 by rw [abs_sub_comm]; norm_num [abs_of_nonneg]]
  rw [show (1000 : ℝ) / cfgC.linear_jerk_max = 1 / 1000000 by
    norm_num [cfgC]]
  rw [sqrt_one_over_1e6]
  norm_num

theorem length_0_100000 : _mp_get_length cfgC 0 100000 = 1000 := by
  unfold _mp_get_length
  dsimp only
  rw [show |(100000 : ℝ) - 0| = 100000 by norm_num [abs_of_nonneg]]
  rw [show (100000 : ℝ) / cfgC.linear_jerk_max = 1 / 10000 by
    norm_num [cfgC]]
  rw [sqrt_one_over_1e4]
  norm_num

theorem log_ten_gt_one : (1 : ℝ) < Real.log 10 := by
  rw [Real.lt_log_iff_exp_lt (by norm_num : (0 : ℝ) < 10)]
  calc Real.exp 1 < 2.7182818286 := Real.exp_one_lt_d9
    _ < 10 := by norm_num

theorem rpow_1000_exponent_low :
    (100000 : ℝ) + 1 / 100 ≤ 1000 * (1000 : ℝ) ^ ((0.6666667 : ℝ)) := by
  have h1000 : (1000 : ℝ) = (10 : ℝ) ^ ((3 : ℕ) : ℝ) := by
    rw [Real.rpow_natCast]
    norm_num
  have hsplit : (10 : ℝ) ^ ((2.0000001 : ℝ)) =
      (10 : ℝ) ^ ((2 : ℝ)) * (10 : ℝ) ^ ((0.0000001 : ℝ)) := by
    rw [← Real.rpow_add (by norm_num : (0 : ℝ) < 10)]
    norm_num
  have h100 : (10 : ℝ) ^ ((2 : ℝ)) = 100 := by
    rw [show (2 : ℝ) = ((2 : ℕ) : ℝ) by norm_num, Real.rpow_natCast]
    norm_num
  have hlow : (1 : ℝ) + 1 / 10000000 ≤ (10 : ℝ) ^ ((0.0000001 : ℝ)) := by
    rw [Real.rpow_def_of_pos (by norm_num : (0 : ℝ) < 10)]
    have hexp := Real.add_one_le_exp (Real.log 10 * 0.0000001)
    have hlog : (1 : ℝ) / 10000000 ≤ Real.log 10 * 0.0000001 := by
      nlinarith [log_ten_gt_one]
    linarith
  calc (100000 : ℝ) + 1 / 100
      ≤ 1000 * (100 * (1 + 1 / 10000000)) := by norm_num
    _ ≤ 1000 * (100 * (10 : ℝ) ^ ((0.0000001 : ℝ))) := by nlinarith [hlow]
    _ = 1000 * (10 : ℝ) ^ ((2.0000001 : ℝ)) := by rw [hsplit, h100]
    _ = 1000 * ((10 : ℝ) ^ ((3 : ℕ) : ℝ)) ^ ((0.6666667 : ℝ)) := by
        rw [← Real.rpow_mul (by norm_num : (0 : ℝ) ≤ 10)]
        norm_num
    _ = 1000 * (1000 : ℝ) ^ ((0.6666667 : ℝ)) := by rw [← h1000]

/-- C3 counterexample: with Jm = 10^9 (so linear_jerk_rad3 = 1000), the
round trip V(Vi, L(Vi, Vf)) = Vf fails by far more than 1e-6 at two points
of [0, 10^6]^2: (a) Vi = 1000, Vf = 0 (the formula is direction-blind, so
the result is 2000, not 0); (b) Vi = 0, Vf = 100000, where the coded
exponent 0.6666667 instead of 2/3 inflates the result by about 0.023. -/
theorem c3_roundtrip_counterexample :
    ¬(|_mp_get_velocity mmC 1000 (_mp_get_length cfgC 1000 0) - 0| ≤
        1 / 1000000) ∧
    ¬(|_mp_get_velocity mmC 0 (_mp_get_length cfgC 0 100000) - 100000| ≤
        1 / 1000000) := by
  have hrad : mmC.linear_jerk_rad3 = 1000 := by
    show cubert 1000000000 = 1000
    exact cubert_1e9
  constructor
  · rw [length_1000_0]
    unfold _mp_get_velocity
    rw [hrad, Real.one_rpow]
    norm_num
  · rw [length_0_100000]
    unfold _mp_get_velocity
    rw [hrad]
    intro habs
    have h1 := rpow_1000_exponent_low
    have h2 := abs_le.mp habs
    have h3 := h2.2
    nlinarith [h1, h3]

/-- C3 (amended): with the exact exponent 2/3 (mp_get_velocity_spec, as
written in the spec; the code uses the approximation 0.6666667) and for
0 ≤ Vi ≤ Vf ≤ 10^6 (the formulas invert each other only in the
non-decreasing direction), the round trip is exact:
V(Vi, L(Vi, Vf)) = Vf. -/
theorem c3_roundtrip_amended (cfg : Config) (Vi Vf : ℝ)
    (hJ : 0 < cfg.linear_jerk_max) (_h0 : 0 ≤ Vi) (hle : Vi ≤ Vf)
    (_hub : Vf ≤ 1000000) :
    mp_get_velocity_spec cfg Vi (_mp_get_length cfg Vi Vf) = Vf := by
  unfold mp_get_velocity_spec _mp_get_length cubert
  dsimp only
  have habs : |Vf - Vi| = Vf - Vi := abs_of_nonneg (by linarith)
  rw [habs]
  set J := cfg.linear_jerk_max with hJdef
  set d := Vf - Vi with hd
  rcases eq_or_lt_of_le (show (0 : ℝ) ≤ d by simp [hd]; linarith) with h | hdpos
  · rw [← h]
    rw [show (0 : ℝ) * Real.sqrt (0 / J) = 0 by norm_num]
    rw [Real.zero_rpow (by norm_num : (2 : ℝ) / 3 ≠ 0)]
    simp [hd] at h
    linarith
  · have hdle := hdpos.le
    have hdJ : 0 ≤ d / J := div_nonneg hdle hJ.le
    have hsuff : J ^ ((1 : ℝ) / 3) *
        (d * Real.sqrt (d / J)) ^ ((2 : ℝ) / 3) = d := by
      rw [Real.sqrt_eq_rpow]
      rw [Real.mul_rpow hdle (Real.rpow_nonneg hdJ _)]
      rw [← Real.rpow_mul hdJ]
      rw [show (1 : ℝ) / 2 * ((2 : ℝ) / 3) = 1 / 3 by norm_num]
      rw [Real.div_rpow hdle hJ.le]
      have hJ3 : (0 : ℝ) < J ^ ((1 : ℝ) / 3) := Real.rpow_pos_of_pos hJ _
      have hdd : d ^ ((2 : ℝ) / 3) * d ^ ((1 : ℝ) / 3) = d := by
        rw [← Real.rpow_add hdpos]
        rw [show (2 : ℝ) / 3 + 1 / 3 = 1 by norm_num, Real.rpow_one]
      field_simp
      exact hdd
    rw [hsuff]
    simp [hd]

/-- C3 witness for the amended theorem: at Jm = 10^9, Vi = 0, Vf = 1000
(inside [0, 10^6]) the hypotheses hold and the spec-exponent round trip is
exact. -/
theorem c3_roundtrip_amended_witness :
    ((0 : ℝ) < cfgC.linear_jerk_max ∧ (0 : ℝ) ≤ 0 ∧ (0 : ℝ) ≤ 1000 ∧
      (1000 : ℝ) ≤ 1000000) ∧
    mp_get_velocity_spec cfgC 0 (_mp_get_length cfgC 0 1000) = 1000 :=
  ⟨⟨by norm_num [cfgC], le_refl 0, by norm_num, by norm_num⟩,
    c3_roundtrip_amended cfgC 0 1000 (by norm_num [cfgC]) (le_refl 0)
      (by norm_num) (by norm_num)⟩

theorem sqrt_two_gt : (1.4 : ℝ) < Real.sqrt 2 := by
  have h := Real.sqrt_lt_sqrt (by norm_num : (0 : ℝ) ≤ 1.96)
    (by norm_num : (1.96 : ℝ) < 2)
  rwa [show (1.96 : ℝ) = (1.4 : ℝ) ^ 2 by norm_num,
    Real.sqrt_sq (by norm_num : (0 : ℝ) ≤ 1.4)] at h

theorem sqrt_two_lt : Real.sqrt 2 < 1.5 := by
  have h := Real.sqrt_lt_sqrt (by norm_num : (0 : ℝ) ≤ 2)
    (by norm_num : (2 : ℝ) < 2.25)
  rwa [show (2.25 : ℝ) = (1.5 : ℝ) ^ 2 by norm_num,
    Real.sqrt_sq (by norm_num : (0 : ℝ) ≤ 1.5)] at h

theorem length_1000_2000 : _mp_get_length cfgC 1000 2000 = 1 := by
  unfold _mp_get_length
  dsimp only
  rw [show |(2000 : ℝ) - 1000| = 1000 by
    rw [abs_of_nonneg (by norm_num : (0 : ℝ) ≤ 2000 - 1000)]; norm_num]
  rw [show (1000 : ℝ) / cfgC.linear_jerk_max = 1 / 1000000 by norm_num [cfgC]]
  rw [sqrt_one_over_1e6]
  norm_num

theorem length_2000_1000 : _mp_get_length cfgC 2000 1000 = 1 := by
  unfold _mp_get_length
  dsimp only
  rw [show |(1000 : ℝ) - 2000| = 1000 by
    rw [abs_sub_comm, abs_of_nonneg (by norm_num : (0 : ℝ) ≤ 2000 - 1000)]
    norm_num]
  rw [show (1000 : ℝ) / cfgC.linear_jerk_max = 1 / 1000000 by norm_num [cfgC]]
  rw [sqrt_one_over_1e6]
  norm_num

theorem length_2000_0 : _mp_get_length cfgC 2000 0 = 2 * Real.sqrt 2 := by
  unfold _mp_get_length
  dsimp only
  rw [show |(0 : ℝ) - 2000| = 2000 by
    rw [abs_sub_comm, abs_of_nonneg (by norm_num : (0 : ℝ) ≤ 2000 - 0)]
    norm_num]
  rw [show (2000 : ℝ) / cfgC.linear_jerk_max = 2 * (1 / 1000000) by
    norm_num [cfgC]]
  rw [Real.sqrt_mul (by norm_num : (0 : ℝ) ≤ 2), sqrt_one_over_1e6]
  ring

theorem vel_1000_1 : _mp_get_velocity mmC 1000 1 = 2000 := by
  unfold _mp_get_velocity
  rw [show mmC.linear_jerk_rad3 = cubert 1000000000 from rfl, cubert_1e9,
    Real.one_rpow]
  norm_num

theorem ht_pass_eval : _mp_ht_pass cfgC mmC 3 1000 0 2000 =
    (2000, 1, 2 * Real.sqrt 2, 3 - 1 - 2 * Real.sqrt 2) := by
  unfold _mp_ht_pass
  dsimp only
  rw [show |(1000 : ℝ) - 2000| = 1000 by
    rw [abs_sub_comm, abs_of_nonneg (by norm_num : (0 : ℝ) ≤ 2000 - 1000)]
    norm_num]
  rw [show |(2000 : ℝ) - 0| = 2000 by
    rw [abs_of_nonneg (by norm_num : (0 : ℝ) ≤ 2000 - 0)]
    norm_num]
  rw [show (3 : ℝ) * (1000 / (1000 + 2000)) = 1 by norm_num]
  rw [vel_1000_1, length_2000_1000, length_2000_0]

theorem ht_loop_eval : _mp_ht_loop cfgC mmC 3 1000 0 100 2000 0 =
    (2000, 1, 2 * Real.sqrt 2, 3 - 1 - 2 * Real.sqrt 2) := by
  have hcond1 : |(0 : ℝ) - (3 - 1 - 2 * Real.sqrt 2)| > cfgC.EPSILON := by
    rw [show (0 : ℝ) - (3 - 1 - 2 * Real.sqrt 2) = 2 * Real.sqrt 2 - 2 by ring]
    rw [abs_of_nonneg (by nlinarith [sqrt_two_gt])]
    rw [show cfgC.EPSILON = 1 / 10000 from rfl]
    nlinarith [sqrt_two_gt]
  have hcond2 : ¬(|(3 - 1 - 2 * Real.sqrt 2 : ℝ) -
      (3 - 1 - 2 * Real.sqrt 2)| > cfgC.EPSILON) := by
    rw [sub_self, abs_zero, show cfgC.EPSILON = 1 / 10000 from rfl]
    norm_num
  rw [show (100 : ℕ) = 99 + 1 from rfl, _mp_ht_loop]
  rw [ht_pass_eval]
  dsimp only
  rw [if_pos hcond1]
  rw [show (99 : ℕ) = 98 + 1 from rfl, _mp_ht_loop]
  rw [ht_pass_eval]
  dsimp only
  rw [if_neg hcond2]

theorem compute_regions_c1_eval :
    _mp_compute_regions cfgC mmC 1000 2000 0 mC1 =
      (2, { mC1 with
        initial_velocity_req := 1000
        initial_velocity := 1000
        target_velocity := 2000
        cruise_velocity := 2000
        final_velocity := 0
        head_length := 1
        body_length := 0
        tail_length := 2 * Real.sqrt 2 }) := by
  unfold _mp_compute_regions
  dsimp only
  rw [show mC1.length = 3 from rfl]
  rw [if_neg (by norm_num [cfgC] : ¬((3 : ℝ) < cfgC.MIN_LINE_LENGTH))]
  rw [length_1000_2000, length_2000_0]
  rw [if_neg (show ¬((3 : ℝ) - 1 - 2 * Real.sqrt 2 > 0) by
    nlinarith [sqrt_two_gt])]
  rw [if_neg (show ¬((0 : ℝ) < 1000 ∧ (3 : ℝ) < 2 * Real.sqrt 2) by
    rintro ⟨_, hc⟩
    nlinarith [sqrt_two_lt])]
  rw [if_neg (show ¬((0 : ℝ) > 1000 ∧ (3 : ℝ) < 1) by
    rintro ⟨hc, _⟩
    norm_num at hc)]
  rw [if_neg (show ¬(|(0 : ℝ) - 1000| < cfgC.EPSILON ∧
      |(0 : ℝ) - 2000| < cfgC.EPSILON) by
    rintro ⟨hc, _⟩
    rw [abs_sub_comm, abs_of_nonneg (by norm_num : (0 : ℝ) ≤ 1000 - 0),
      show cfgC.EPSILON = 1 / 10000 from rfl] at hc
    norm_num at hc)]
  rw [ht_loop_eval]
  dsimp only
  rw [if_neg (show ¬((1 : ℝ) < cfgC.EPSILON) by norm_num [cfgC])]
  rw [if_neg (show ¬((2 * Real.sqrt 2 : ℝ) < cfgC.EPSILON) by
    rw [show cfgC.EPSILON = 1 / 10000 from rfl]
    nlinarith [sqrt_two_gt])]

/-- C1 counterexample: for a 3 mm aline with Vir = 1000, Vt = 2000, Vf = 0
under Jm = 10^9, _mp_compute_regions takes the HT fallback and converges
(successive body estimates change by 0 < EPSILON) to head = 1 mm,
body = 0, tail = 2*sqrt(2) mm; _mp_queue_move commits these three buffers
successfully, and their lengths sum to 1 + 2*sqrt(2), which differs from
the total move length 3 by 2*sqrt(2) - 2, about 0.828 mm - far more than
EPSILON. -/
theorem c1_region_sum_counterexample :
    (_mp_queue_move cfgC (_mp_compute_regions cfgC mmC 1000 2000 0 mC1).2
      mmC pool0).1 = .ok ∧
    ¬(|((_mp_queue_move cfgC (_mp_compute_regions cfgC mmC 1000 2000 0 mC1).2
          mmC pool0).2.2.2.bf
        ((_mp_queue_move cfgC (_mp_compute_regions cfgC mmC 1000 2000 0 mC1).2
          mmC pool0).2.1.head)).length +
       ((_mp_queue_move cfgC (_mp_compute_regions cfgC mmC 1000 2000 0 mC1).2
          mmC pool0).2.2.2.bf
        ((_mp_queue_move cfgC (_mp_compute_regions cfgC mmC 1000 2000 0 mC1).2
          mmC pool0).2.1.body)).length +
       ((_mp_queue_move cfgC (_mp_compute_regions cfgC mmC 1000 2000 0 mC1).2
          mmC pool0).2.2.2.bf
        ((_mp_queue_move cfgC (_mp_compute_regions cfgC mmC 1000 2000 0 mC1).2
          mmC pool0).2.1.tail)).length -
       mC1.length| ≤ cfgC.EPSILON) := by
  have hh : ((_mp_queue_move cfgC
      (_mp_compute_regions cfgC mmC 1000 2000 0 mC1).2 mmC pool0).2.2.2.bf
      ((_mp_queue_move cfgC (_mp_compute_regions cfgC mmC 1000 2000 0 mC1).2
        mmC pool0).2.1.head)).length =
      (_mp_compute_regions cfgC mmC 1000 2000 0 mC1).2.head_length := rfl
  have hb : ((_mp_queue_move cfgC
      (_mp_compute_regions cfgC mmC 1000 2000 0 mC1).2 mmC pool0).2.2.2.bf
      ((_mp_queue_move cfgC (_mp_compute_regions cfgC mmC 1000 2000 0 mC1).2
        mmC pool0).2.1.body)).length =
      (_mp_compute_regions cfgC mmC 1000 2000 0 mC1).2.body_length := rfl
  have ht : ((_mp_queue_move cfgC
      (_mp_compute_regions cfgC mmC 1000 2000 0 mC1).2 mmC pool0).2.2.2.bf
      ((_mp_queue_move cfgC (_mp_compute_regions cfgC mmC 1000 2000 0 mC1).2
        mmC pool0).2.1.tail)).length =
      (_mp_compute_regions cfgC mmC 1000 2000 0 mC1).2.tail_length := rfl
  refine ⟨rfl, ?_⟩
  rw [hh, hb, ht, compute_regions_c1_eval]
  dsimp only
  rw [show mC1.length = 3 from rfl, show cfgC.EPSILON = 1 / 10000 from rfl]
  rw [show (1 : ℝ) + 0 + 2 * Real.sqrt 2 - 3 = 2 * Real.sqrt 2 - 2 by ring]
  rw [abs_of_nonneg (by nlinarith [sqrt_two_gt])]
  intro hc
  nlinarith [sqrt_two_gt]

theorem queue_buffer_writes (cfg : Config) (Vs Ve Vr len : ℝ)
    (mm : MoveMaster) (pool : BufferPool n) (i : Fin n)
    (hs : (_mp_queue_buffer cfg Vs Ve Vr len mm pool).1 = some i) :
    ((_mp_queue_buffer cfg Vs Ve Vr len mm pool).2.2.bf i).start_velocity = Vs ∧
    ((_mp_queue_buffer cfg Vs Ve Vr len mm pool).2.2.bf i).end_velocity = Ve ∧
    ((_mp_queue_buffer cfg Vs Ve Vr len mm pool).2.2.bf i).length = len ∧
    ((_mp_queue_buffer cfg Vs Ve Vr len mm pool).2.2.bf i).buffer_state ≠
      .empty := by
  unfold _mp_queue_buffer _mp_get_write_buffer _mp_queue_write_buffer at hs ⊢
  by_cases h : (pool.bf pool.w).buffer_state = .empty
  · rw [if_pos h] at hs ⊢
    dsimp only at hs ⊢
    have hi : pool.w = i := Option.some.inj hs
    subst hi
    simp only [Function.update_apply]
    split_ifs <;>
      first
        | exact ⟨rfl, rfl, rfl, fun hc => BufferState.noConfusion hc⟩
        | simp_all
  · rw [if_neg h] at hs
    exact absurd hs (by simp)

theorem queue_buffer_preserves_committed (cfg : Config) (Vs Ve Vr len : ℝ)
    (mm : MoveMaster) (pool : BufferPool n) (j : Fin n)
    (hne : (pool.bf j).buffer_state ≠ .empty) :
    ((_mp_queue_buffer cfg Vs Ve Vr len mm pool).2.2.bf j).start_velocity =
      (pool.bf j).start_velocity ∧
    ((_mp_queue_buffer cfg Vs Ve Vr len mm pool).2.2.bf j).end_velocity =
      (pool.bf j).end_velocity ∧
    ((_mp_queue_buffer cfg Vs Ve Vr len mm pool).2.2.bf j).length =
      (pool.bf j).length ∧
    ((_mp_queue_buffer cfg Vs Ve Vr len mm pool).2.2.bf j).buffer_state ≠
      .empty := by
  unfold _mp_queue_buffer _mp_get_write_buffer _mp_queue_write_buffer
  by_cases h : (pool.bf pool.w).buffer_state = .empty
  · rw [if_pos h]
    dsimp only
    have hjw : j ≠ pool.w := by
      intro he
      rw [he] at hne
      exact hne h
    simp only [Function.update_apply]
    split_ifs <;>
      first
        | exact ⟨rfl, rfl, rfl, hne⟩
        | exact ⟨rfl, rfl, rfl, fun hc => BufferState.noConfusion hc⟩
        | simp_all
  · rw [if_neg h]
    exact ⟨rfl, rfl, rfl, hne⟩

/-- C1 (amended): velocity chaining always holds for a committed aline -
whenever _mp_queue_move returns OK, the head buffer runs from the actual
initial velocity to the cruise velocity, the body cruises, and the tail
runs from the cruise velocity to the final velocity, with the three
buffers carrying the three computed region lengths.  The length closure
head + body + tail = total length holds exactly (hence within EPSILON)
whenever _mp_compute_regions returns via the HBT path (3 regions) or a
single-region path (1 region); the HT fallback (2 regions) does not
guarantee it (see the counterexample). -/
theorem c1_region_closure_amended (cfg : Config) (mm : MoveMaster)
    (Vir Vt Vf : ℝ) (m0 : MovePlanner n) (mmq : MoveMaster)
    (m : MovePlanner n) (pool : BufferPool n) :
    (((_mp_compute_regions cfg mm Vir Vt Vf m0).1 = 3 ∨
      (_mp_compute_regions cfg mm Vir Vt Vf m0).1 = 1) →
      (_mp_compute_regions cfg mm Vir Vt Vf m0).2.head_length +
      (_mp_compute_regions cfg mm Vir Vt Vf m0).2.body_length +
      (_mp_compute_regions cfg mm Vir Vt Vf m0).2.tail_length = m0.length) ∧
    ((_mp_queue_move cfg m mmq pool).1 = .ok →
      (((_mp_queue_move cfg m mmq pool).2.2.2.bf
        (_mp_queue_move cfg m mmq pool).2.1.head).start_velocity =
          m.initial_velocity ∧
       ((_mp_queue_move cfg m mmq pool).2.2.2.bf
        (_mp_queue_move cfg m mmq pool).2.1.head).end_velocity =
          m.cruise_velocity ∧
       ((_mp_queue_move cfg m mmq pool).2.2.2.bf
        (_mp_queue_move cfg m mmq pool).2.1.body).start_velocity =
          m.cruise_velocity ∧
       ((_mp_queue_move cfg m mmq pool).2.2.2.bf
        (_mp_queue_move cfg m mmq pool).2.1.body).end_velocity =
          m.cruise_velocity ∧
       ((_mp_queue_move cfg m mmq pool).2.2.2.bf
        (_mp_queue_move cfg m mmq pool).2.1.tail).start_velocity =
          m.cruise_velocity ∧
       ((_mp_queue_move cfg m mmq pool).2.2.2.bf
        (_mp_queue_move cfg m mmq pool).2.1.tail).end_velocity =
          m.final_velocity ∧
       ((_mp_queue_move cfg m mmq pool).2.2.2.bf
        (_mp_queue_move cfg m mmq pool).2.1.head).length = m.head_length ∧
       ((_mp_queue_move cfg m mmq pool).2.2.2.bf
        (_mp_queue_move cfg m mmq pool).2.1.body).length = m.body_length ∧
       ((_mp_queue_move cfg m mmq pool).2.2.2.bf
        (_mp_queue_move cfg m mmq pool).2.1.tail).length = m.tail_length)) := by
  constructor
  · unfold _mp_compute_regions
    dsimp only
    split
    next => intro h; exact absurd h (by dsimp only; decide)
    next =>
      split
      next =>
        split <;> split <;> intro _ <;> dsimp only <;> ring
      next =>
        split
        next => intro _; dsimp only; ring
        next =>
          split
          next => intro _; dsimp only; ring
          next =>
            split
            next => intro _; dsimp only; ring
            next => intro h; exact absurd h (by dsimp only; decide)
  · intro hok
    unfold _mp_queue_move at hok ⊢
    rcases hq1 : _mp_queue_buffer cfg m.initial_velocity m.cruise_velocity
        m.initial_velocity_req m.head_length mmq pool with ⟨o1, mm1, p1⟩
    rw [hq1] at hok
    rcases o1 with _ | h1
    · dsimp only at hok
      exact absurd hok (by simp)
    · dsimp only at hok ⊢
      have hs1 : (_mp_queue_buffer cfg m.initial_velocity m.cruise_velocity
          m.initial_velocity_req m.head_length mmq pool).1 = some h1 := by
        rw [hq1]
      have hw1 := queue_buffer_writes cfg m.initial_velocity m.cruise_velocity
        m.initial_velocity_req m.head_length mmq pool h1 hs1
      rw [hq1] at hw1
      dsimp only at hw1
      rcases hq2 : _mp_queue_buffer cfg m.cruise_velocity m.cruise_velocity
          m.target_velocity m.body_length mm1 p1 with ⟨o2, mm2, p2⟩
      rw [hq2] at hok
      rcases o2 with _ | b2
      · dsimp only at hok
        exact absurd hok (by simp)
      · dsimp only at hok ⊢
        have hs2 : (_mp_queue_buffer cfg m.cruise_velocity m.cruise_velocity
            m.target_velocity m.body_length mm1 p1).1 = some b2 := by
          rw [hq2]
        have hw2 := queue_buffer_writes cfg m.cruise_velocity m.cruise_velocity
          m.target_velocity m.body_length mm1 p1 b2 hs2
        rw [hq2] at hw2
        dsimp only at hw2
        have hk2 := queue_buffer_preserves_committed cfg m.cruise_velocity
          m.cruise_velocity m.target_velocity m.body_length mm1 p1 h1 hw1.2.2.2
        rw [hq2] at hk2
        dsimp only at hk2
        rcases hq3 : _mp_queue_buffer cfg m.cruise_velocity m.final_velocity
            m.target_velocity m.tail_length mm2 p2 with ⟨o3, mm3, p3⟩
        rw [hq3] at hok
        rcases o3 with _ | t3
        · dsimp only at hok
          exact absurd hok (by simp)
        · dsimp only at hok ⊢
          have hs3 : (_mp_queue_buffer cfg m.cruise_velocity m.final_velocity
              m.target_velocity m.tail_length mm2 p2).1 = some t3 := by
            rw [hq3]
          have hw3 := queue_buffer_writes cfg m.cruise_velocity
            m.final_velocity m.target_velocity m.tail_length mm2 p2 t3 hs3
          rw [hq3] at hw3
          dsimp only at hw3
          have hk3h := queue_buffer_preserves_committed cfg m.cruise_velocity
            m.final_velocity m.target_velocity m.tail_length mm2 p2 h1 hk2.2.2.2
          rw [hq3] at hk3h
          dsimp only at hk3h
          have hk3b := queue_buffer_preserves_committed cfg m.cruise_velocity
            m.final_velocity m.target_velocity m.tail_length mm2 p2 b2 hw2.2.2.2
          rw [hq3] at hk3b
          dsimp only at hk3b
          exact ⟨hk3h.1.trans (hk2.1.trans hw1.1),
                 hk3h.2.1.trans (hk2.2.1.trans hw1.2.1),
                 hk3b.1.trans hw2.1,
                 hk3b.2.1.trans hw2.2.1,
                 hw3.1,
                 hw3.2.1,
                 hk3h.2.2.1.trans (hk2.2.2.1.trans hw1.2.2.1),
                 hk3b.2.2.1.trans hw2.2.2.1,
                 hw3.2.2.1⟩

theorem length_0_0 : _mp_get_length cfgC 0 0 = 0 := by
  unfold _mp_get_length
  dsimp only
  rw [show |(0 : ℝ) - 0| = 0 by simp]
  norm_num

theorem compute_regions_B_returns_3 :
    (_mp_compute_regions cfgC mmC 0 0 0 mC1).1 = 3 := by
  unfold _mp_compute_regions
  dsimp only
  rw [show mC1.length = 3 from rfl]
  rw [if_neg (by norm_num [cfgC] : ¬((3 : ℝ) < cfgC.MIN_LINE_LENGTH))]
  rw [length_0_0]
  rw [if_pos (show (3 : ℝ) - 0 - 0 > 0 by norm_num)]

/-- C1 witness for the amended theorem: a move with Vir = Vt = Vf = 0 over
3 mm takes the 3-region path, so the region closure applies; committing
the planned move `mQ` into the fresh pool succeeds, so the velocity
chaining applies. -/
theorem c1_region_closure_amended_witness :
    (((_mp_compute_regions cfgC mmC 0 0 0 mC1).1 = 3 ∨
      (_mp_compute_regions cfgC mmC 0 0 0 mC1).1 = 1) ∧
     (_mp_queue_move cfgC mQ mmC pool0).1 = .ok) ∧
    ((_mp_compute_regions cfgC mmC 0 0 0 mC1).2.head_length +
     (_mp_compute_regions cfgC mmC 0 0 0 mC1).2.body_length +
     (_mp_compute_regions cfgC mmC 0 0 0 mC1).2.tail_length = mC1.length) ∧
    (((_mp_queue_move cfgC mQ mmC pool0).2.2.2.bf
      (_mp_queue_move cfgC mQ mmC pool0).2.1.head).start_velocity =
        mQ.initial_velocity ∧
     ((_mp_queue_move cfgC mQ mmC pool0).2.2.2.bf
      (_mp_queue_move cfgC mQ mmC pool0).2.1.head).end_velocity =
        mQ.cruise_velocity ∧
     ((_mp_queue_move cfgC mQ mmC pool0).2.2.2.bf
      (_mp_queue_move cfgC mQ mmC pool0).2.1.body).start_velocity =
        mQ.cruise_velocity ∧
     ((_mp_queue_move cfgC mQ mmC pool0).2.2.2.bf
      (_mp_queue_move cfgC mQ mmC pool0).2.1.body).end_velocity =
        mQ.cruise_velocity ∧
     ((_mp_queue_move cfgC mQ mmC pool0).2.2.2.bf
      (_mp_queue_move cfgC mQ mmC pool0).2.1.tail).start_velocity =
        mQ.cruise_velocity ∧
     ((_mp_queue_move cfgC mQ mmC pool0).2.2.2.bf
      (_mp_queue_move cfgC mQ mmC pool0).2.1.tail).end_velocity =
        mQ.final_velocity ∧
     ((_mp_queue_move cfgC mQ mmC pool0).2.2.2.bf
      (_mp_queue_move cfgC mQ mmC pool0).2.1.head).length = mQ.head_length ∧
     ((_mp_queue_move cfgC mQ mmC pool0).2.2.2.bf
      (_mp_queue_move cfgC mQ mmC pool0).2.1.body).length = mQ.body_length ∧
     ((_mp_queue_move cfgC mQ mmC pool0).2.2.2.bf
      (_mp_queue_move cfgC mQ mmC pool0).2.1.tail).length = mQ.tail_length) :=
  ⟨⟨Or.inl compute_regions_B_returns_3, rfl⟩,
   (c1_region_closure_amended cfgC mmC 0 0 0 mC1 mmC mQ pool0).1
     (Or.inl compute_regions_B_returns_3),
   (c1_region_closure_amended cfgC mmC 0 0 0 mC1 mmC mQ pool0).2 rfl⟩

end

end TinyG
